import Mathlib

/-!
Verification of the `iter_enumeration` crate (src/lib.rs): fixed-arity tagged
unions `IterEnum2` .. `IterEnum6` over iterators sharing one element type,
with a forwarding `Iterator` implementation and per-slot wrap methods
`iter_enum_2a` .. `iter_enum_6f` provided by blanket extension traits.

Shallow embedding: Rust's `Iterator` trait method `fn next(&mut self) ->
Option<Self::Item>` mutates the receiver in place and returns an optional
element; we model it by explicit state passing, `next : α → Option I × α`.
Iterators may be infinite, so whole-sequence observations (`collect`,
`count`, sums) take a fuel argument bounding the number of `next` calls.
-/

namespace IterEnumeration

/-- Rust's `Iterator` trait with `Item = I`, modelled by state passing:
`next it` returns the optional element together with the advanced state. -/
class Iterator (α : Type) (I : outParam Type) where
  next : α → Option I × α

/-- `collect fuel it`: the list of elements obtained by calling `next` up to
`fuel` times, stopping early at the first `none` (end of sequence). -/
def collect {α I : Type} [Iterator α I] : Nat → α → List I
  | 0, _ => []
  | n + 1, it =>
    match Iterator.next it with
    | (none, _) => []
    | (some a, it') => a :: collect n it'

/-- The state reached after `n` calls to `next` (results discarded). -/
def advance {α I : Type} [Iterator α I] : Nat → α → α
  | 0, it => it
  | n + 1, it => advance n (Iterator.next it).2

/-- Rust's `Iterator::count`, fueled: the number of elements seen within
`fuel` calls to `next`. -/
def count {α I : Type} [Iterator α I] (fuel : Nat) (it : α) : Nat :=
  (collect fuel it).length

/-- Rust's `Iterator::sum::<i32>()`, fueled: fold addition over the collected
elements. -/
def sumIter {α : Type} [Iterator α Int] (fuel : Nat) (it : α) : Int :=
  (collect fuel it).foldl (fun s i => s + i) 0

/-- `w` is a step-by-step simulation: one `next` on the wrapped value is one
`next` on the wrapped iterator, with the result returned unchanged and the
new state being the wrap of the iterator's new state. -/
def simulates {α β I : Type} [Iterator α I] [Iterator β I] (w : α → β) : Prop :=
  ∀ it : α, Iterator.next (w it) = ((Iterator.next it).1, w ((Iterator.next it).2))

theorem collect_of_simulates {α β I : Type} [Iterator α I] [Iterator β I]
    (w : α → β) (h : simulates w) :
    ∀ (n : Nat) (it : α), collect n (w it) = collect n it := by
  intro n
  induction n with
  | zero => intro it; rfl
  | succ n ih =>
    intro it
    have hw := h it
    simp only [collect]
    rw [hw]
    rcases hn : Iterator.next it with ⟨r, s⟩
    rcases r with _ | a
    · rfl
    · simpa using ih s

theorem advance_of_simulates {α β I : Type} [Iterator α I] [Iterator β I]
    (w : α → β) (h : simulates w) :
    ∀ (n : Nat) (it : α), advance n (w it) = w (advance n it) := by
  intro n
  induction n with
  | zero => intro it; rfl
  | succ n ih =>
    intro it
    show advance n (Iterator.next (w it)).2 = w (advance n (Iterator.next it).2)
    rw [h it]
    exact ih (Iterator.next it).2

/-- Once `collect` terminates strictly within its fuel (it saw end-of-sequence),
extra fuel does not change the result. -/
theorem collect_stable {α I : Type} [Iterator α I] :
    ∀ (n : Nat) (it : α), (collect n it).length < n →
      ∀ (m : Nat), collect (n + m) it = collect n it := by
  intro n
  induction n with
  | zero => intro it h; exact absurd h (Nat.not_lt_zero _)
  | succ n ih =>
    intro it h m
    have hm : n + 1 + m = (n + m) + 1 := by omega
    rw [hm]
    rcases hn : Iterator.next it with ⟨r, s⟩
    rcases r with _ | a
    · simp only [collect, hn]
    · simp only [collect, hn, List.length_cons] at h ⊢
      have : (collect n s).length < n := by omega
      rw [ih s this m]

/-! ## The tagged unions (macro `impl_iter_enum` instantiated at arities 2..6)

Each arity gives: the `#[derive(Clone, Debug)] pub enum`, the forwarding
`impl Iterator` (match on the active variant, call the interior `next`), and
the blanket extension trait whose method `$iter_enum_k` wraps `self` into
slot k, the other type parameters being phantom at the call. Rust's derived
`Clone` is modelled by the `Clone` class below. -/

/-- Rust's `Clone` trait; the derived instances for the enums clone the
interior value of the active variant. -/
class Clone (α : Type) where
  clone : α → α

inductive IterEnum2 (A B : Type) : Type where
  | A : A → IterEnum2 A B
  | B : B → IterEnum2 A B

instance {I A B : Type} [Iterator A I] [Iterator B I] :
    Iterator (IterEnum2 A B) I where
  next x :=
    match x with
    | .A inner => let r := Iterator.next inner; (r.1, .A r.2)
    | .B inner => let r := Iterator.next inner; (r.1, .B r.2)

instance {A B : Type} [Clone A] [Clone B] : Clone (IterEnum2 A B) where
  clone x :=
    match x with
    | .A inner => .A (Clone.clone inner)
    | .B inner => .B (Clone.clone inner)

/-- The index of the active slot (0 for `A`, 1 for `B`). -/
def IterEnum2.tag {A B : Type} : IterEnum2 A B → Nat
  | .A _ => 0
  | .B _ => 1

/-- Pattern-match out the slot-A variant. -/
def IterEnum2.unwrapA {A B : Type} : IterEnum2 A B → Option A
  | .A inner => some inner
  | _ => none

/-- Pattern-match out the slot-B variant. -/
def IterEnum2.unwrapB {A B : Type} : IterEnum2 A B → Option B
  | .B inner => some inner
  | _ => none

/-- `IntoIterEnum2::iter_enum_2a`: generics `(B)`, receiver installed at
slot A. -/
def iter_enum_2a {B T : Type} (self : T) : IterEnum2 T B := IterEnum2.A self

/-- `IntoIterEnum2::iter_enum_2b`: generics `(A)`, receiver installed at
slot B. -/
def iter_enum_2b {A T : Type} (self : T) : IterEnum2 A T := IterEnum2.B self

inductive IterEnum3 (A B C : Type) : Type where
  | A : A → IterEnum3 A B C
  | B : B → IterEnum3 A B C
  | C : C → IterEnum3 A B C

instance {I A B C : Type} [Iterator A I] [Iterator B I] [Iterator C I] :
    Iterator (IterEnum3 A B C) I where
  next x :=
    match x with
    | .A inner => let r := Iterator.next inner; (r.1, .A r.2)
    | .B inner => let r := Iterator.next inner; (r.1, .B r.2)
    | .C inner => let r := Iterator.next inner; (r.1, .C r.2)

instance {A B C : Type} [Clone A] [Clone B] [Clone C] :
    Clone (IterEnum3 A B C) where
  clone x :=
    match x with
    | .A inner => .A (Clone.clone inner)
    | .B inner => .B (Clone.clone inner)
    | .C inner => .C (Clone.clone inner)

/-- The index of the active slot (0, 1, 2 for `A`, `B`, `C`). -/
def IterEnum3.tag {A B C : Type} : IterEnum3 A B C → Nat
  | .A _ => 0
  | .B _ => 1
  | .C _ => 2

/-- Pattern-match out the slot-A variant. -/
def IterEnum3.unwrapA {A B C : Type} : IterEnum3 A B C → Option A
  | .A inner => some inner
  | _ => none

/-- Pattern-match out the slot-B variant. -/
def IterEnum3.unwrapB {A B C : Type} : IterEnum3 A B C → Option B
  | .B inner => some inner
  | _ => none

/-- Pattern-match out the slot-C variant. -/
def IterEnum3.unwrapC {A B C : Type} : IterEnum3 A B C → Option C
  | .C inner => some inner
  | _ => none

/-- `IntoIterEnum3::iter_enum_3a`: generics `(B, C)`, receiver at slot A. -/
def iter_enum_3a {B C T : Type} (self : T) : IterEnum3 T B C := IterEnum3.A self

/-- `IntoIterEnum3::iter_enum_3b`: generics `(A, C)`, receiver at slot B. -/
def iter_enum_3b {A C T : Type} (self : T) : IterEnum3 A T C := IterEnum3.B self

/-- `IntoIterEnum3::iter_enum_3c`: generics `(A, B)`, receiver at slot C. -/
def iter_enum_3c {A B T : Type} (self : T) : IterEnum3 A B T := IterEnum3.C self

inductive IterEnum4 (A B C D : Type) : Type where
  | A : A → IterEnum4 A B C D
  | B : B → IterEnum4 A B C D
  | C : C → IterEnum4 A B C D
  | D : D → IterEnum4 A B C D

instance {I A B C D : Type} [Iterator A I] [Iterator B I] [Iterator C I] [Iterator D I] :
    Iterator (IterEnum4 A B C D) I where
  next x :=
    match x with
    | .A inner => let r := Iterator.next inner; (r.1, .A r.2)
    | .B inner => let r := Iterator.next inner; (r.1, .B r.2)
    | .C inner => let r := Iterator.next inner; (r.1, .C r.2)
    | .D inner => let r := Iterator.next inner; (r.1, .D r.2)

instance {A B C D : Type} [Clone A] [Clone B] [Clone C] [Clone D] :
    Clone (IterEnum4 A B C D) where
  clone x :=
    match x with
    | .A inner => .A (Clone.clone inner)
    | .B inner => .B (Clone.clone inner)
    | .C inner => .C (Clone.clone inner)
    | .D inner => .D (Clone.clone inner)

/-- The index of the active slot (0 for `A` up to 3 for `D`). -/
def IterEnum4.tag {A B C D : Type} : IterEnum4 A B C D → Nat
  | .A _ => 0
  | .B _ => 1
  | .C _ => 2
  | .D _ => 3

/-- Pattern-match out the slot-A variant. -/
def IterEnum4.unwrapA {A B C D : Type} : IterEnum4 A B C D → Option A
  | .A inner => some inner
  | _ => none

/-- Pattern-match out the slot-B variant. -/
def IterEnum4.unwrapB {A B C D : Type} : IterEnum4 A B C D → Option B
  | .B inner => some inner
  | _ => none

/-- Pattern-match out the slot-C variant. -/
def IterEnum4.unwrapC {A B C D : Type} : IterEnum4 A B C D → Option C
  | .C inner => some inner
  | _ => none

/-- Pattern-match out the slot-D variant. -/
def IterEnum4.unwrapD {A B C D : Type} : IterEnum4 A B C D → Option D
  | .D inner => some inner
  | _ => none

/-- `IntoIterEnum4::iter_enum_4a`: generics `(B, C, D)`, receiver at slot A. -/
def iter_enum_4a {B C D T : Type} (self : T) : IterEnum4 T B C D := IterEnum4.A self

/-- `IntoIterEnum4::iter_enum_4b`: generics `(A, C, D)`, receiver at slot B. -/
def iter_enum_4b {A C D T : Type} (self : T) : IterEnum4 A T C D := IterEnum4.B self

/-- `IntoIterEnum4::iter_enum_4c`: generics `(A, B, D)`, receiver at slot C. -/
def iter_enum_4c {A B D T : Type} (self : T) : IterEnum4 A B T D := IterEnum4.C self

/-- `IntoIterEnum4::iter_enum_4d`: generics `(A, B, C)`, receiver at slot D. -/
def iter_enum_4d {A B C T : Type} (self : T) : IterEnum4 A B C T := IterEnum4.D self

inductive IterEnum5 (A B C D E : Type) : Type where
  | A : A → IterEnum5 A B C D E
  | B : B → IterEnum5 A B C D E
  | C : C → IterEnum5 A B C D E
  | D : D → IterEnum5 A B C D E
  | E : E → IterEnum5 A B C D E

instance {I A B C D E : Type} [Iterator A I] [Iterator B I] [Iterator C I] [Iterator D I] [Iterator E I] :
    Iterator (IterEnum5 A B C D E) I where
  next x :=
    match x with
    | .A inner => let r := Iterator.next inner; (r.1, .A r.2)
    | .B inner => let r := Iterator.next inner; (r.1, .B r.2)
    | .C inner => let r := Iterator.next inner; (r.1, .C r.2)
    | .D inner => let r := Iterator.next inner; (r.1, .D r.2)
    | .E inner => let r := Iterator.next inner; (r.1, .E r.2)

instance {A B C D E : Type} [Clone A] [Clone B] [Clone C] [Clone D] [Clone E] :
    Clone (IterEnum5 A B C D E) where
  clone x :=
    match x with
    | .A inner => .A (Clone.clone inner)
    | .B inner => .B (Clone.clone inner)
    | .C inner => .C (Clone.clone inner)
    | .D inner => .D (Clone.clone inner)
    | .E inner => .E (Clone.clone inner)

/-- The index of the active slot (0 for `A` up to 4 for `E`). -/
def IterEnum5.tag {A B C D E : Type} : IterEnum5 A B C D E → Nat
  | .A _ => 0
  | .B _ => 1
  | .C _ => 2
  | .D _ => 3
  | .E _ => 4

/-- Pattern-match out the slot-A variant. -/
def IterEnum5.unwrapA {A B C D E : Type} : IterEnum5 A B C D E → Option A
  | .A inner => some inner
  | _ => none

/-- Pattern-match out the slot-B variant. -/
def IterEnum5.unwrapB {A B C D E : Type} : IterEnum5 A B C D E → Option B
  | .B inner => some inner
  | _ => none

/-- Pattern-match out the slot-C variant. -/
def IterEnum5.unwrapC {A B C D E : Type} : IterEnum5 A B C D E → Option C
  | .C inner => some inner
  | _ => none

/-- Pattern-match out the slot-D variant. -/
def IterEnum5.unwrapD {A B C D E : Type} : IterEnum5 A B C D E → Option D
  | .D inner => some inner
  | _ => none

/-- Pattern-match out the slot-E variant. -/
def IterEnum5.unwrapE {A B C D E : Type} : IterEnum5 A B C D E → Option E
  | .E inner => some inner
  | _ => none

/-- `IntoIterEnum5::iter_enum_5a`: generics `(B, C, D, E)`, receiver at slot A. -/
def iter_enum_5a {B C D E T : Type} (self : T) : IterEnum5 T B C D E := IterEnum5.A self

/-- `IntoIterEnum5::iter_enum_5b`: generics `(A, C, D, E)`, receiver at slot B. -/
def iter_enum_5b {A C D E T : Type} (self : T) : IterEnum5 A T C D E := IterEnum5.B self

/-- `IntoIterEnum5::iter_enum_5c`: generics `(A, B, D, E)`, receiver at slot C. -/
def iter_enum_5c {A B D E T : Type} (self : T) : IterEnum5 A B T D E := IterEnum5.C self

/-- `IntoIterEnum5::iter_enum_5d`: generics `(A, B, C, E)`, receiver at slot D. -/
def iter_enum_5d {A B C E T : Type} (self : T) : IterEnum5 A B C T E := IterEnum5.D self

/-- `IntoIterEnum5::iter_enum_5e`: generics `(A, B, C, D)`, receiver at slot E. -/
def iter_enum_5e {A B C D T : Type} (self : T) : IterEnum5 A B C D T := IterEnum5.E self

inductive IterEnum6 (A B C D E F : Type) : Type where
  | A : A → IterEnum6 A B C D E F
  | B : B → IterEnum6 A B C D E F
  | C : C → IterEnum6 A B C D E F
  | D : D → IterEnum6 A B C D E F
  | E : E → IterEnum6 A B C D E F
  | F : F → IterEnum6 A B C D E F

instance {I A B C D E F : Type} [Iterator A I] [Iterator B I] [Iterator C I] [Iterator D I] [Iterator E I] [Iterator F I] :
    Iterator (IterEnum6 A B C D E F) I where
  next x :=
    match x with
    | .A inner => let r := Iterator.next inner; (r.1, .A r.2)
    | .B inner => let r := Iterator.next inner; (r.1, .B r.2)
    | .C inner => let r := Iterator.next inner; (r.1, .C r.2)
    | .D inner => let r := Iterator.next inner; (r.1, .D r.2)
    | .E inner => let r := Iterator.next inner; (r.1, .E r.2)
    | .F inner => let r := Iterator.next inner; (r.1, .F r.2)

instance {A B C D E F : Type} [Clone A] [Clone B] [Clone C] [Clone D] [Clone E] [Clone F] :
    Clone (IterEnum6 A B C D E F) where
  clone x :=
    match x with
    | .A inner => .A (Clone.clone inner)
    | .B inner => .B (Clone.clone inner)
    | .C inner => .C (Clone.clone inner)
    | .D inner => .D (Clone.clone inner)
    | .E inner => .E (Clone.clone inner)
    | .F inner => .F (Clone.clone inner)

/-- The index of the active slot (0 for `A` up to 5 for `F`). -/
def IterEnum6.tag {A B C D E F : Type} : IterEnum6 A B C D E F → Nat
  | .A _ => 0
  | .B _ => 1
  | .C _ => 2
  | .D _ => 3
  | .E _ => 4
  | .F _ => 5

/-- Pattern-match out the slot-A variant. -/
def IterEnum6.unwrapA {A B C D E F : Type} : IterEnum6 A B C D E F → Option A
  | .A inner => some inner
  | _ => none

/-- Pattern-match out the slot-B variant. -/
def IterEnum6.unwrapB {A B C D E F : Type} : IterEnum6 A B C D E F → Option B
  | .B inner => some inner
  | _ => none

/-- Pattern-match out the slot-C variant. -/
def IterEnum6.unwrapC {A B C D E F : Type} : IterEnum6 A B C D E F → Option C
  | .C inner => some inner
  | _ => none

/-- Pattern-match out the slot-D variant. -/
def IterEnum6.unwrapD {A B C D E F : Type} : IterEnum6 A B C D E F → Option D
  | .D inner => some inner
  | _ => none

/-- Pattern-match out the slot-E variant. -/
def IterEnum6.unwrapE {A B C D E F : Type} : IterEnum6 A B C D E F → Option E
  | .E inner => some inner
  | _ => none

/-- Pattern-match out the slot-F variant. -/
def IterEnum6.unwrapF {A B C D E F : Type} : IterEnum6 A B C D E F → Option F
  | .F inner => some inner
  | _ => none

/-- `IntoIterEnum6::iter_enum_6a`: generics `(B, C, D, E, F)`, receiver at slot A. -/
def iter_enum_6a {B C D E F T : Type} (self : T) : IterEnum6 T B C D E F := IterEnum6.A self

/-- `IntoIterEnum6::iter_enum_6b`: generics `(A, C, D, E, F)`, receiver at slot B. -/
def iter_enum_6b {A C D E F T : Type} (self : T) : IterEnum6 A T C D E F := IterEnum6.B self

/-- `IntoIterEnum6::iter_enum_6c`: generics `(A, B, D, E, F)`, receiver at slot C. -/
def iter_enum_6c {A B D E F T : Type} (self : T) : IterEnum6 A B T D E F := IterEnum6.C self

/-- `IntoIterEnum6::iter_enum_6d`: generics `(A, B, C, E, F)`, receiver at slot D. -/
def iter_enum_6d {A B C E F T : Type} (self : T) : IterEnum6 A B C T E F := IterEnum6.D self

/-- `IntoIterEnum6::iter_enum_6e`: generics `(A, B, C, D, F)`, receiver at slot E. -/
def iter_enum_6e {A B C D F T : Type} (self : T) : IterEnum6 A B C D T F := IterEnum6.E self

/-- `IntoIterEnum6::iter_enum_6f`: generics `(A, B, C, D, F)`, receiver at slot F. The source's before-list here is the anomalous `(A, B, C, D, F)`: the fifth generic is named `F` instead of `E`, with no effect on behavior. -/
def iter_enum_6f {A B C D F T : Type} (self : T) : IterEnum6 A B C D F T := IterEnum6.F self

/-! ## Concrete iterators used by the crate's tests

The tests wrap `core` iterators: integer ranges `a..b`, `map`, and `filter`
(element type `i32`, modelled as `Int`). `Range<i32>::next` yields `start`
and increments it while `start < end`. `Map` applies its function to each
yielded element. `Filter::next` loops on the interior iterator until an
element satisfies the predicate or the interior is exhausted; over a range
that loop runs at most `(stop - start).toNat` times, which we use as an
explicit structural bound (the loop can never exhaust it early). -/

structure RangeIter where
  start : Int
  stop : Int
deriving DecidableEq

instance : Iterator RangeIter Int where
  next r :=
    if r.start < r.stop then (some r.start, ⟨r.start + 1, r.stop⟩) else (none, r)

instance : Clone RangeIter where
  clone r := ⟨r.start, r.stop⟩

structure RangeMap where
  inner : RangeIter
  f : Int → Int

instance : Iterator RangeMap Int where
  next m :=
    match Iterator.next m.inner with
    | (none, r) => (none, ⟨r, m.f⟩)
    | (some a, r) => (some (m.f a), ⟨r, m.f⟩)

structure RangeFilter where
  inner : RangeIter
  pred : Int → Bool

/-- The `Filter::next` loop over a range, with its structural bound as fuel:
skip elements failing the predicate, return the first that passes. -/
def filterLoop (p : Int → Bool) : Nat → RangeIter → Option Int × RangeFilter
  | 0, r => (none, ⟨r, p⟩)
  | fuel + 1, r =>
    if r.start < r.stop then
      if p r.start then (some r.start, ⟨⟨r.start + 1, r.stop⟩, p⟩)
      else filterLoop p fuel ⟨r.start + 1, r.stop⟩
    else (none, ⟨r, p⟩)

instance : Iterator RangeFilter Int where
  next f := filterLoop f.pred (f.inner.stop - f.inner.start).toNat f.inner

/-- A list as an iterator: the outer "sequence of sequences" in the
`iterator_of_iterators` test (built there from `empty`, `chain`, `once`) is
the three-element sequence of union values. -/
instance {I : Type} : Iterator (List I) I where
  next l :=
    match l with
    | [] => (none, [])
    | a :: rest => (some a, rest)

/-! ## Per-slot step simulation lemmas -/

theorem sim_2a {I A B : Type} [Iterator A I] [Iterator B I] :
    simulates (@iter_enum_2a B A) := fun _ => rfl

theorem sim_2b {I A B : Type} [Iterator A I] [Iterator B I] :
    simulates (@iter_enum_2b A B) := fun _ => rfl

theorem sim_3a {I A B C : Type} [Iterator A I] [Iterator B I] [Iterator C I] :
    simulates (@iter_enum_3a B C A) := fun _ => rfl

theorem sim_3b {I A B C : Type} [Iterator A I] [Iterator B I] [Iterator C I] :
    simulates (@iter_enum_3b A C B) := fun _ => rfl

theorem sim_3c {I A B C : Type} [Iterator A I] [Iterator B I] [Iterator C I] :
    simulates (@iter_enum_3c A B C) := fun _ => rfl

theorem sim_4a {I A B C D : Type} [Iterator A I] [Iterator B I] [Iterator C I] [Iterator D I] :
    simulates (@iter_enum_4a B C D A) := fun _ => rfl

theorem sim_4b {I A B C D : Type} [Iterator A I] [Iterator B I] [Iterator C I] [Iterator D I] :
    simulates (@iter_enum_4b A C D B) := fun _ => rfl

theorem sim_4c {I A B C D : Type} [Iterator A I] [Iterator B I] [Iterator C I] [Iterator D I] :
    simulates (@iter_enum_4c A B D C) := fun _ => rfl

theorem sim_4d {I A B C D : Type} [Iterator A I] [Iterator B I] [Iterator C I] [Iterator D I] :
    simulates (@iter_enum_4d A B C D) := fun _ => rfl

theorem sim_5a {I A B C D E : Type} [Iterator A I] [Iterator B I] [Iterator C I] [Iterator D I] [Iterator E I] :
    simulates (@iter_enum_5a B C D E A) := fun _ => rfl

theorem sim_5b {I A B C D E : Type} [Iterator A I] [Iterator B I] [Iterator C I] [Iterator D I] [Iterator E I] :
    simulates (@iter_enum_5b A C D E B) := fun _ => rfl

theorem sim_5c {I A B C D E : Type} [Iterator A I] [Iterator B I] [Iterator C I] [Iterator D I] [Iterator E I] :
    simulates (@iter_enum_5c A B D E C) := fun _ => rfl

theorem sim_5d {I A B C D E : Type} [Iterator A I] [Iterator B I] [Iterator C I] [Iterator D I] [Iterator E I] :
    simulates (@iter_enum_5d A B C E D) := fun _ => rfl

theorem sim_5e {I A B C D E : Type} [Iterator A I] [Iterator B I] [Iterator C I] [Iterator D I] [Iterator E I] :
    simulates (@iter_enum_5e A B C D E) := fun _ => rfl

theorem sim_6a {I A B C D E F : Type} [Iterator A I] [Iterator B I] [Iterator C I] [Iterator D I] [Iterator E I] [Iterator F I] :
    simulates (@iter_enum_6a B C D E F A) := fun _ => rfl

theorem sim_6b {I A B C D E F : Type} [Iterator A I] [Iterator B I] [Iterator C I] [Iterator D I] [Iterator E I] [Iterator F I] :
    simulates (@iter_enum_6b A C D E F B) := fun _ => rfl

theorem sim_6c {I A B C D E F : Type} [Iterator A I] [Iterator B I] [Iterator C I] [Iterator D I] [Iterator E I] [Iterator F I] :
    simulates (@iter_enum_6c A B D E F C) := fun _ => rfl

theorem sim_6d {I A B C D E F : Type} [Iterator A I] [Iterator B I] [Iterator C I] [Iterator D I] [Iterator E I] [Iterator F I] :
    simulates (@iter_enum_6d A B C E F D) := fun _ => rfl

theorem sim_6e {I A B C D E F : Type} [Iterator A I] [Iterator B I] [Iterator C I] [Iterator D I] [Iterator E I] [Iterator F I] :
    simulates (@iter_enum_6e A B C D F E) := fun _ => rfl

theorem sim_6f {I A B C D E F : Type} [Iterator A I] [Iterator B I] [Iterator C I] [Iterator D I] [Iterator E I] [Iterator F I] :
    simulates (@iter_enum_6f A B C D E F) := fun _ => rfl

/-- Claim C1: for every arity N in 2..6 and every slot k, wrapping an
iterator P into slot k via the slot-k wrap operation and then repeatedly
calling the union's `next` yields exactly the same sequence of elements,
in the same order, terminating at the same point, as calling `next` on P
directly: `collect (wrap_k P) = collect P` at every fuel. -/
theorem collect_wrap_eq :
    (∀ (I A B : Type) [Iterator A I] [Iterator B I] (n : Nat) (P : A),
      collect n (@iter_enum_2a B A P) = collect n P) ∧
    (∀ (I A B : Type) [Iterator A I] [Iterator B I] (n : Nat) (P : B),
      collect n (@iter_enum_2b A B P) = collect n P) ∧
    (∀ (I A B C : Type) [Iterator A I] [Iterator B I] [Iterator C I] (n : Nat) (P : A),
      collect n (@iter_enum_3a B C A P) = collect n P) ∧
    (∀ (I A B C : Type) [Iterator A I] [Iterator B I] [Iterator C I] (n : Nat) (P : B),
      collect n (@iter_enum_3b A C B P) = collect n P) ∧
    (∀ (I A B C : Type) [Iterator A I] [Iterator B I] [Iterator C I] (n : Nat) (P : C),
      collect n (@iter_enum_3c A B C P) = collect n P) ∧
    (∀ (I A B C D : Type) [Iterator A I] [Iterator B I] [Iterator C I] [Iterator D I] (n : Nat) (P : A),
      collect n (@iter_enum_4a B C D A P) = collect n P) ∧
    (∀ (I A B C D : Type) [Iterator A I] [Iterator B I] [Iterator C I] [Iterator D I] (n : Nat) (P : B),
      collect n (@iter_enum_4b A C D B P) = collect n P) ∧
    (∀ (I A B C D : Type) [Iterator A I] [Iterator B I] [Iterator C I] [Iterator D I] (n : Nat) (P : C),
      collect n (@iter_enum_4c A B D C P) = collect n P) ∧
    (∀ (I A B C D : Type) [Iterator A I] [Iterator B I] [Iterator C I] [Iterator D I] (n : Nat) (P : D),
      collect n (@iter_enum_4d A B C D P) = collect n P) ∧
    (∀ (I A B C D E : Type) [Iterator A I] [Iterator B I] [Iterator C I] [Iterator D I] [Iterator E I] (n : Nat) (P : A),
      collect n (@iter_enum_5a B C D E A P) = collect n P) ∧
    (∀ (I A B C D E : Type) [Iterator A I] [Iterator B I] [Iterator C I] [Iterator D I] [Iterator E I] (n : Nat) (P : B),
      collect n (@iter_enum_5b A C D E B P) = collect n P) ∧
    (∀ (I A B C D E : Type) [Iterator A I] [Iterator B I] [Iterator C I] [Iterator D I] [Iterator E I] (n : Nat) (P : C),
      collect n (@iter_enum_5c A B D E C P) = collect n P) ∧
    (∀ (I A B C D E : Type) [Iterator A I] [Iterator B I] [Iterator C I] [Iterator D I] [Iterator E I] (n : Nat) (P : D),
      collect n (@iter_enum_5d A B C E D P) = collect n P) ∧
    (∀ (I A B C D E : Type) [Iterator A I] [Iterator B I] [Iterator C I] [Iterator D I] [Iterator E I] (n : Nat) (P : E),
      collect n (@iter_enum_5e A B C D E P) = collect n P) ∧
    (∀ (I A B C D E F : Type) [Iterator A I] [Iterator B I] [Iterator C I] [Iterator D I] [Iterator E I] [Iterator F I] (n : Nat) (P : A),
      collect n (@iter_enum_6a B C D E F A P) = collect n P) ∧
    (∀ (I A B C D E F : Type) [Iterator A I] [Iterator B I] [Iterator C I] [Iterator D I] [Iterator E I] [Iterator F I] (n : Nat) (P : B),
      collect n (@iter_enum_6b A C D E F B P) = collect n P) ∧
    (∀ (I A B C D E F : Type) [Iterator A I] [Iterator B I] [Iterator C I] [Iterator D I] [Iterator E I] [Iterator F I] (n : Nat) (P : C),
      collect n (@iter_enum_6c A B D E F C P) = collect n P) ∧
    (∀ (I A B C D E F : Type) [Iterator A I] [Iterator B I] [Iterator C I] [Iterator D I] [Iterator E I] [Iterator F I] (n : Nat) (P : D),
      collect n (@iter_enum_6d A B C E F D P) = collect n P) ∧
    (∀ (I A B C D E F : Type) [Iterator A I] [Iterator B I] [Iterator C I] [Iterator D I] [Iterator E I] [Iterator F I] (n : Nat) (P : E),
      collect n (@iter_enum_6e A B C D F E P) = collect n P) ∧
    (∀ (I A B C D E F : Type) [Iterator A I] [Iterator B I] [Iterator C I] [Iterator D I] [Iterator E I] [Iterator F I] (n : Nat) (P : F),
      collect n (@iter_enum_6f A B C D E F P) = collect n P) :=
  ⟨fun I A B iA iB n P =>
     collect_of_simulates (@iter_enum_2a B A) sim_2a n P,
   fun I A B iA iB n P =>
     collect_of_simulates (@iter_enum_2b A B) sim_2b n P,
   fun I A B C iA iB iC n P =>
     collect_of_simulates (@iter_enum_3a B C A) sim_3a n P,
   fun I A B C iA iB iC n P =>
     collect_of_simulates (@iter_enum_3b A C B) sim_3b n P,
   fun I A B C iA iB iC n P =>
     collect_of_simulates (@iter_enum_3c A B C) sim_3c n P,
   fun I A B C D iA iB iC iD n P =>
     collect_of_simulates (@iter_enum_4a B C D A) sim_4a n P,
   fun I A B C D iA iB iC iD n P =>
     collect_of_simulates (@iter_enum_4b A C D B) sim_4b n P,
   fun I A B C D iA iB iC iD n P =>
     collect_of_simulates (@iter_enum_4c A B D C) sim_4c n P,
   fun I A B C D iA iB iC iD n P =>
     collect_of_simulates (@iter_enum_4d A B C D) sim_4d n P,
   fun I A B C D E iA iB iC iD iE n P =>
     collect_of_simulates (@iter_enum_5a B C D E A) sim_5a n P,
   fun I A B C D E iA iB iC iD iE n P =>
     collect_of_simulates (@iter_enum_5b A C D E B) sim_5b n P,
   fun I A B C D E iA iB iC iD iE n P =>
     collect_of_simulates (@iter_enum_5c A B D E C) sim_5c n P,
   fun I A B C D E iA iB iC iD iE n P =>
     collect_of_simulates (@iter_enum_5d A B C E D) sim_5d n P,
   fun I A B C D E iA iB iC iD iE n P =>
     collect_of_simulates (@iter_enum_5e A B C D E) sim_5e n P,
   fun I A B C D E F iA iB iC iD iE iF n P =>
     collect_of_simulates (@iter_enum_6a B C D E F A) sim_6a n P,
   fun I A B C D E F iA iB iC iD iE iF n P =>
     collect_of_simulates (@iter_enum_6b A C D E F B) sim_6b n P,
   fun I A B C D E F iA iB iC iD iE iF n P =>
     collect_of_simulates (@iter_enum_6c A B D E F C) sim_6c n P,
   fun I A B C D E F iA iB iC iD iE iF n P =>
     collect_of_simulates (@iter_enum_6d A B C E F D) sim_6d n P,
   fun I A B C D E F iA iB iC iD iE iF n P =>
     collect_of_simulates (@iter_enum_6e A B C D F E) sim_6e n P,
   fun I A B C D E F iA iB iC iD iE iF n P =>
     collect_of_simulates (@iter_enum_6f A B C D E F) sim_6f n P⟩

/-- Claim C2: one call to the union's `next` is exactly one call to the
active interior iterator's `next`, its result returned unchanged and the
new state the same-slot wrap of the interior's new state: a step-by-step
simulation, for every arity and slot. -/
theorem next_wrap_step :
    (∀ (I A B : Type) [Iterator A I] [Iterator B I] (P : A),
      Iterator.next (@iter_enum_2a B A P) =
        ((Iterator.next P).1, @iter_enum_2a B A ((Iterator.next P).2))) ∧
    (∀ (I A B : Type) [Iterator A I] [Iterator B I] (P : B),
      Iterator.next (@iter_enum_2b A B P) =
        ((Iterator.next P).1, @iter_enum_2b A B ((Iterator.next P).2))) ∧
    (∀ (I A B C : Type) [Iterator A I] [Iterator B I] [Iterator C I] (P : A),
      Iterator.next (@iter_enum_3a B C A P) =
        ((Iterator.next P).1, @iter_enum_3a B C A ((Iterator.next P).2))) ∧
    (∀ (I A B C : Type) [Iterator A I] [Iterator B I] [Iterator C I] (P : B),
      Iterator.next (@iter_enum_3b A C B P) =
        ((Iterator.next P).1, @iter_enum_3b A C B ((Iterator.next P).2))) ∧
    (∀ (I A B C : Type) [Iterator A I] [Iterator B I] [Iterator C I] (P : C),
      Iterator.next (@iter_enum_3c A B C P) =
        ((Iterator.next P).1, @iter_enum_3c A B C ((Iterator.next P).2))) ∧
    (∀ (I A B C D : Type) [Iterator A I] [Iterator B I] [Iterator C I] [Iterator D I] (P : A),
      Iterator.next (@iter_enum_4a B C D A P) =
        ((Iterator.next P).1, @iter_enum_4a B C D A ((Iterator.next P).2))) ∧
    (∀ (I A B C D : Type) [Iterator A I] [Iterator B I] [Iterator C I] [Iterator D I] (P : B),
      Iterator.next (@iter_enum_4b A C D B P) =
        ((Iterator.next P).1, @iter_enum_4b A C D B ((Iterator.next P).2))) ∧
    (∀ (I A B C D : Type) [Iterator A I] [Iterator B I] [Iterator C I] [Iterator D I] (P : C),
      Iterator.next (@iter_enum_4c A B D C P) =
        ((Iterator.next P).1, @iter_enum_4c A B D C ((Iterator.next P).2))) ∧
    (∀ (I A B C D : Type) [Iterator A I] [Iterator B I] [Iterator C I] [Iterator D I] (P : D),
      Iterator.next (@iter_enum_4d A B C D P) =
        ((Iterator.next P).1, @iter_enum_4d A B C D ((Iterator.next P).2))) ∧
    (∀ (I A B C D E : Type) [Iterator A I] [Iterator B I] [Iterator C I] [Iterator D I] [Iterator E I] (P : A),
      Iterator.next (@iter_enum_5a B C D E A P) =
        ((Iterator.next P).1, @iter_enum_5a B C D E A ((Iterator.next P).2))) ∧
    (∀ (I A B C D E : Type) [Iterator A I] [Iterator B I] [Iterator C I] [Iterator D I] [Iterator E I] (P : B),
      Iterator.next (@iter_enum_5b A C D E B P) =
        ((Iterator.next P).1, @iter_enum_5b A C D E B ((Iterator.next P).2))) ∧
    (∀ (I A B C D E : Type) [Iterator A I] [Iterator B I] [Iterator C I] [Iterator D I] [Iterator E I] (P : C),
      Iterator.next (@iter_enum_5c A B D E C P) =
        ((Iterator.next P).1, @iter_enum_5c A B D E C ((Iterator.next P).2))) ∧
    (∀ (I A B C D E : Type) [Iterator A I] [Iterator B I] [Iterator C I] [Iterator D I] [Iterator E I] (P : D),
      Iterator.next (@iter_enum_5d A B C E D P) =
        ((Iterator.next P).1, @iter_enum_5d A B C E D ((Iterator.next P).2))) ∧
    (∀ (I A B C D E : Type) [Iterator A I] [Iterator B I] [Iterator C I] [Iterator D I] [Iterator E I] (P : E),
      Iterator.next (@iter_enum_5e A B C D E P) =
        ((Iterator.next P).1, @iter_enum_5e A B C D E ((Iterator.next P).2))) ∧
    (∀ (I A B C D E F : Type) [Iterator A I] [Iterator B I] [Iterator C I] [Iterator D I] [Iterator E I] [Iterator F I] (P : A),
      Iterator.next (@iter_enum_6a B C D E F A P) =
        ((Iterator.next P).1, @iter_enum_6a B C D E F A ((Iterator.next P).2))) ∧
    (∀ (I A B C D E F : Type) [Iterator A I] [Iterator B I] [Iterator C I] [Iterator D I] [Iterator E I] [Iterator F I] (P : B),
      Iterator.next (@iter_enum_6b A C D E F B P) =
        ((Iterator.next P).1, @iter_enum_6b A C D E F B ((Iterator.next P).2))) ∧
    (∀ (I A B C D E F : Type) [Iterator A I] [Iterator B I] [Iterator C I] [Iterator D I] [Iterator E I] [Iterator F I] (P : C),
      Iterator.next (@iter_enum_6c A B D E F C P) =
        ((Iterator.next P).1, @iter_enum_6c A B D E F C ((Iterator.next P).2))) ∧
    (∀ (I A B C D E F : Type) [Iterator A I] [Iterator B I] [Iterator C I] [Iterator D I] [Iterator E I] [Iterator F I] (P : D),
      Iterator.next (@iter_enum_6d A B C E F D P) =
        ((Iterator.next P).1, @iter_enum_6d A B C E F D ((Iterator.next P).2))) ∧
    (∀ (I A B C D E F : Type) [Iterator A I] [Iterator B I] [Iterator C I] [Iterator D I] [Iterator E I] [Iterator F I] (P : E),
      Iterator.next (@iter_enum_6e A B C D F E P) =
        ((Iterator.next P).1, @iter_enum_6e A B C D F E ((Iterator.next P).2))) ∧
    (∀ (I A B C D E F : Type) [Iterator A I] [Iterator B I] [Iterator C I] [Iterator D I] [Iterator E I] [Iterator F I] (P : F),
      Iterator.next (@iter_enum_6f A B C D E F P) =
        ((Iterator.next P).1, @iter_enum_6f A B C D E F ((Iterator.next P).2))) :=
  ⟨fun I A B iA iB P => sim_2a P,
   fun I A B iA iB P => sim_2b P,
   fun I A B C iA iB iC P => sim_3a P,
   fun I A B C iA iB iC P => sim_3b P,
   fun I A B C iA iB iC P => sim_3c P,
   fun I A B C D iA iB iC iD P => sim_4a P,
   fun I A B C D iA iB iC iD P => sim_4b P,
   fun I A B C D iA iB iC iD P => sim_4c P,
   fun I A B C D iA iB iC iD P => sim_4d P,
   fun I A B C D E iA iB iC iD iE P => sim_5a P,
   fun I A B C D E iA iB iC iD iE P => sim_5b P,
   fun I A B C D E iA iB iC iD iE P => sim_5c P,
   fun I A B C D E iA iB iC iD iE P => sim_5d P,
   fun I A B C D E iA iB iC iD iE P => sim_5e P,
   fun I A B C D E F iA iB iC iD iE iF P => sim_6a P,
   fun I A B C D E F iA iB iC iD iE iF P => sim_6b P,
   fun I A B C D E F iA iB iC iD iE iF P => sim_6c P,
   fun I A B C D E F iA iB iC iD iE iF P => sim_6d P,
   fun I A B C D E F iA iB iC iD iE iF P => sim_6e P,
   fun I A B C D E F iA iB iC iD iE iF P => sim_6f P⟩

/-- Claim C3: once constructed via the slot-k wrap operation, the union's
active slot never changes: after any number n of `next` calls the value
still carries slot k's tag, and the state is the slot-k wrap of the
n-times-advanced interior iterator (`next` only mutates interior state). -/
theorem slot_identity_invariant :
    (∀ (I A B : Type) [Iterator A I] [Iterator B I] (n : Nat) (P : A),
      IterEnum2.tag (advance n (@iter_enum_2a B A P)) = 0 ∧
      advance n (@iter_enum_2a B A P) = @iter_enum_2a B A (advance n P)) ∧
    (∀ (I A B : Type) [Iterator A I] [Iterator B I] (n : Nat) (P : B),
      IterEnum2.tag (advance n (@iter_enum_2b A B P)) = 1 ∧
      advance n (@iter_enum_2b A B P) = @iter_enum_2b A B (advance n P)) ∧
    (∀ (I A B C : Type) [Iterator A I] [Iterator B I] [Iterator C I] (n : Nat) (P : A),
      IterEnum3.tag (advance n (@iter_enum_3a B C A P)) = 0 ∧
      advance n (@iter_enum_3a B C A P) = @iter_enum_3a B C A (advance n P)) ∧
    (∀ (I A B C : Type) [Iterator A I] [Iterator B I] [Iterator C I] (n : Nat) (P : B),
      IterEnum3.tag (advance n (@iter_enum_3b A C B P)) = 1 ∧
      advance n (@iter_enum_3b A C B P) = @iter_enum_3b A C B (advance n P)) ∧
    (∀ (I A B C : Type) [Iterator A I] [Iterator B I] [Iterator C I] (n : Nat) (P : C),
      IterEnum3.tag (advance n (@iter_enum_3c A B C P)) = 2 ∧
      advance n (@iter_enum_3c A B C P) = @iter_enum_3c A B C (advance n P)) ∧
    (∀ (I A B C D : Type) [Iterator A I] [Iterator B I] [Iterator C I] [Iterator D I] (n : Nat) (P : A),
      IterEnum4.tag (advance n (@iter_enum_4a B C D A P)) = 0 ∧
      advance n (@iter_enum_4a B C D A P) = @iter_enum_4a B C D A (advance n P)) ∧
    (∀ (I A B C D : Type) [Iterator A I] [Iterator B I] [Iterator C I] [Iterator D I] (n : Nat) (P : B),
      IterEnum4.tag (advance n (@iter_enum_4b A C D B P)) = 1 ∧
      advance n (@iter_enum_4b A C D B P) = @iter_enum_4b A C D B (advance n P)) ∧
    (∀ (I A B C D : Type) [Iterator A I] [Iterator B I] [Iterator C I] [Iterator D I] (n : Nat) (P : C),
      IterEnum4.tag (advance n (@iter_enum_4c A B D C P)) = 2 ∧
      advance n (@iter_enum_4c A B D C P) = @iter_enum_4c A B D C (advance n P)) ∧
    (∀ (I A B C D : Type) [Iterator A I] [Iterator B I] [Iterator C I] [Iterator D I] (n : Nat) (P : D),
      IterEnum4.tag (advance n (@iter_enum_4d A B C D P)) = 3 ∧
      advance n (@iter_enum_4d A B C D P) = @iter_enum_4d A B C D (advance n P)) ∧
    (∀ (I A B C D E : Type) [Iterator A I] [Iterator B I] [Iterator C I] [Iterator D I] [Iterator E I] (n : Nat) (P : A),
      IterEnum5.tag (advance n (@iter_enum_5a B C D E A P)) = 0 ∧
      advance n (@iter_enum_5a B C D E A P) = @iter_enum_5a B C D E A (advance n P)) ∧
    (∀ (I A B C D E : Type) [Iterator A I] [Iterator B I] [Iterator C I] [Iterator D I] [Iterator E I] (n : Nat) (P : B),
      IterEnum5.tag (advance n (@iter_enum_5b A C D E B P)) = 1 ∧
      advance n (@iter_enum_5b A C D E B P) = @iter_enum_5b A C D E B (advance n P)) ∧
    (∀ (I A B C D E : Type) [Iterator A I] [Iterator B I] [Iterator C I] [Iterator D I] [Iterator E I] (n : Nat) (P : C),
      IterEnum5.tag (advance n (@iter_enum_5c A B D E C P)) = 2 ∧
      advance n (@iter_enum_5c A B D E C P) = @iter_enum_5c A B D E C (advance n P)) ∧
    (∀ (I A B C D E : Type) [Iterator A I] [Iterator B I] [Iterator C I] [Iterator D I] [Iterator E I] (n : Nat) (P : D),
      IterEnum5.tag (advance n (@iter_enum_5d A B C E D P)) = 3 ∧
      advance n (@iter_enum_5d A B C E D P) = @iter_enum_5d A B C E D (advance n P)) ∧
    (∀ (I A B C D E : Type) [Iterator A I] [Iterator B I] [Iterator C I] [Iterator D I] [Iterator E I] (n : Nat) (P : E),
      IterEnum5.tag (advance n (@iter_enum_5e A B C D E P)) = 4 ∧
      advance n (@iter_enum_5e A B C D E P) = @iter_enum_5e A B C D E (advance n P)) ∧
    (∀ (I A B C D E F : Type) [Iterator A I] [Iterator B I] [Iterator C I] [Iterator D I] [Iterator E I] [Iterator F I] (n : Nat) (P : A),
      IterEnum6.tag (advance n (@iter_enum_6a B C D E F A P)) = 0 ∧
      advance n (@iter_enum_6a B C D E F A P) = @iter_enum_6a B C D E F A (advance n P)) ∧
    (∀ (I A B C D E F : Type) [Iterator A I] [Iterator B I] [Iterator C I] [Iterator D I] [Iterator E I] [Iterator F I] (n : Nat) (P : B),
      IterEnum6.tag (advance n (@iter_enum_6b A C D E F B P)) = 1 ∧
      advance n (@iter_enum_6b A C D E F B P) = @iter_enum_6b A C D E F B (advance n P)) ∧
    (∀ (I A B C D E F : Type) [Iterator A I] [Iterator B I] [Iterator C I] [Iterator D I] [Iterator E I] [Iterator F I] (n : Nat) (P : C),
      IterEnum6.tag (advance n (@iter_enum_6c A B D E F C P)) = 2 ∧
      advance n (@iter_enum_6c A B D E F C P) = @iter_enum_6c A B D E F C (advance n P)) ∧
    (∀ (I A B C D E F : Type) [Iterator A I] [Iterator B I] [Iterator C I] [Iterator D I] [Iterator E I] [Iterator F I] (n : Nat) (P : D),
      IterEnum6.tag (advance n (@iter_enum_6d A B C E F D P)) = 3 ∧
      advance n (@iter_enum_6d A B C E F D P) = @iter_enum_6d A B C E F D (advance n P)) ∧
    (∀ (I A B C D E F : Type) [Iterator A I] [Iterator B I] [Iterator C I] [Iterator D I] [Iterator E I] [Iterator F I] (n : Nat) (P : E),
      IterEnum6.tag (advance n (@iter_enum_6e A B C D F E P)) = 4 ∧
      advance n (@iter_enum_6e A B C D F E P) = @iter_enum_6e A B C D F E (advance n P)) ∧
    (∀ (I A B C D E F : Type) [Iterator A I] [Iterator B I] [Iterator C I] [Iterator D I] [Iterator E I] [Iterator F I] (n : Nat) (P : F),
      IterEnum6.tag (advance n (@iter_enum_6f A B C D E F P)) = 5 ∧
      advance n (@iter_enum_6f A B C D E F P) = @iter_enum_6f A B C D E F (advance n P)) :=
  ⟨fun I A B iA iB n P =>
     ⟨by rw [advance_of_simulates (@iter_enum_2a B A) sim_2a n P]; rfl,
      advance_of_simulates (@iter_enum_2a B A) sim_2a n P⟩,
   fun I A B iA iB n P =>
     ⟨by rw [advance_of_simulates (@iter_enum_2b A B) sim_2b n P]; rfl,
      advance_of_simulates (@iter_enum_2b A B) sim_2b n P⟩,
   fun I A B C iA iB iC n P =>
     ⟨by rw [advance_of_simulates (@iter_enum_3a B C A) sim_3a n P]; rfl,
      advance_of_simulates (@iter_enum_3a B C A) sim_3a n P⟩,
   fun I A B C iA iB iC n P =>
     ⟨by rw [advance_of_simulates (@iter_enum_3b A C B) sim_3b n P]; rfl,
      advance_of_simulates (@iter_enum_3b A C B) sim_3b n P⟩,
   fun I A B C iA iB iC n P =>
     ⟨by rw [advance_of_simulates (@iter_enum_3c A B C) sim_3c n P]; rfl,
      advance_of_simulates (@iter_enum_3c A B C) sim_3c n P⟩,
   fun I A B C D iA iB iC iD n P =>
     ⟨by rw [advance_of_simulates (@iter_enum_4a B C D A) sim_4a n P]; rfl,
      advance_of_simulates (@iter_enum_4a B C D A) sim_4a n P⟩,
   fun I A B C D iA iB iC iD n P =>
     ⟨by rw [advance_of_simulates (@iter_enum_4b A C D B) sim_4b n P]; rfl,
      advance_of_simulates (@iter_enum_4b A C D B) sim_4b n P⟩,
   fun I A B C D iA iB iC iD n P =>
     ⟨by rw [advance_of_simulates (@iter_enum_4c A B D C) sim_4c n P]; rfl,
      advance_of_simulates (@iter_enum_4c A B D C) sim_4c n P⟩,
   fun I A B C D iA iB iC iD n P =>
     ⟨by rw [advance_of_simulates (@iter_enum_4d A B C D) sim_4d n P]; rfl,
      advance_of_simulates (@iter_enum_4d A B C D) sim_4d n P⟩,
   fun I A B C D E iA iB iC iD iE n P =>
     ⟨by rw [advance_of_simulates (@iter_enum_5a B C D E A) sim_5a n P]; rfl,
      advance_of_simulates (@iter_enum_5a B C D E A) sim_5a n P⟩,
   fun I A B C D E iA iB iC iD iE n P =>
     ⟨by rw [advance_of_simulates (@iter_enum_5b A C D E B) sim_5b n P]; rfl,
      advance_of_simulates (@iter_enum_5b A C D E B) sim_5b n P⟩,
   fun I A B C D E iA iB iC iD iE n P =>
     ⟨by rw [advance_of_simulates (@iter_enum_5c A B D E C) sim_5c n P]; rfl,
      advance_of_simulates (@iter_enum_5c A B D E C) sim_5c n P⟩,
   fun I A B C D E iA iB iC iD iE n P =>
     ⟨by rw [advance_of_simulates (@iter_enum_5d A B C E D) sim_5d n P]; rfl,
      advance_of_simulates (@iter_enum_5d A B C E D) sim_5d n P⟩,
   fun I A B C D E iA iB iC iD iE n P =>
     ⟨by rw [advance_of_simulates (@iter_enum_5e A B C D E) sim_5e n P]; rfl,
      advance_of_simulates (@iter_enum_5e A B C D E) sim_5e n P⟩,
   fun I A B C D E F iA iB iC iD iE iF n P =>
     ⟨by rw [advance_of_simulates (@iter_enum_6a B C D E F A) sim_6a n P]; rfl,
      advance_of_simulates (@iter_enum_6a B C D E F A) sim_6a n P⟩,
   fun I A B C D E F iA iB iC iD iE iF n P =>
     ⟨by rw [advance_of_simulates (@iter_enum_6b A C D E F B) sim_6b n P]; rfl,
      advance_of_simulates (@iter_enum_6b A C D E F B) sim_6b n P⟩,
   fun I A B C D E F iA iB iC iD iE iF n P =>
     ⟨by rw [advance_of_simulates (@iter_enum_6c A B D E F C) sim_6c n P]; rfl,
      advance_of_simulates (@iter_enum_6c A B D E F C) sim_6c n P⟩,
   fun I A B C D E F iA iB iC iD iE iF n P =>
     ⟨by rw [advance_of_simulates (@iter_enum_6d A B C E F D) sim_6d n P]; rfl,
      advance_of_simulates (@iter_enum_6d A B C E F D) sim_6d n P⟩,
   fun I A B C D E F iA iB iC iD iE iF n P =>
     ⟨by rw [advance_of_simulates (@iter_enum_6e A B C D F E) sim_6e n P]; rfl,
      advance_of_simulates (@iter_enum_6e A B C D F E) sim_6e n P⟩,
   fun I A B C D E F iA iB iC iD iE iF n P =>
     ⟨by rw [advance_of_simulates (@iter_enum_6f A B C D E F) sim_6f n P]; rfl,
      advance_of_simulates (@iter_enum_6f A B C D E F) sim_6f n P⟩⟩

/-- Claim C4: each slot-k construction operation takes its receiver and
returns the union value whose active variant is slot k holding exactly
that receiver. The other N-1 slot types are quantified arbitrarily and no
value of them is needed (they are phantom at the call); the operation is a
total pure function: no side effect, no failure. -/
theorem wrap_installs_receiver :
    (∀ (A B : Type) (P : A),
      @iter_enum_2a B A P = IterEnum2.A P) ∧
    (∀ (A B : Type) (P : B),
      @iter_enum_2b A B P = IterEnum2.B P) ∧
    (∀ (A B C : Type) (P : A),
      @iter_enum_3a B C A P = IterEnum3.A P) ∧
    (∀ (A B C : Type) (P : B),
      @iter_enum_3b A C B P = IterEnum3.B P) ∧
    (∀ (A B C : Type) (P : C),
      @iter_enum_3c A B C P = IterEnum3.C P) ∧
    (∀ (A B C D : Type) (P : A),
      @iter_enum_4a B C D A P = IterEnum4.A P) ∧
    (∀ (A B C D : Type) (P : B),
      @iter_enum_4b A C D B P = IterEnum4.B P) ∧
    (∀ (A B C D : Type) (P : C),
      @iter_enum_4c A B D C P = IterEnum4.C P) ∧
    (∀ (A B C D : Type) (P : D),
      @iter_enum_4d A B C D P = IterEnum4.D P) ∧
    (∀ (A B C D E : Type) (P : A),
      @iter_enum_5a B C D E A P = IterEnum5.A P) ∧
    (∀ (A B C D E : Type) (P : B),
      @iter_enum_5b A C D E B P = IterEnum5.B P) ∧
    (∀ (A B C D E : Type) (P : C),
      @iter_enum_5c A B D E C P = IterEnum5.C P) ∧
    (∀ (A B C D E : Type) (P : D),
      @iter_enum_5d A B C E D P = IterEnum5.D P) ∧
    (∀ (A B C D E : Type) (P : E),
      @iter_enum_5e A B C D E P = IterEnum5.E P) ∧
    (∀ (A B C D E F : Type) (P : A),
      @iter_enum_6a B C D E F A P = IterEnum6.A P) ∧
    (∀ (A B C D E F : Type) (P : B),
      @iter_enum_6b A C D E F B P = IterEnum6.B P) ∧
    (∀ (A B C D E F : Type) (P : C),
      @iter_enum_6c A B D E F C P = IterEnum6.C P) ∧
    (∀ (A B C D E F : Type) (P : D),
      @iter_enum_6d A B C E F D P = IterEnum6.D P) ∧
    (∀ (A B C D E F : Type) (P : E),
      @iter_enum_6e A B C D F E P = IterEnum6.E P) ∧
    (∀ (A B C D E F : Type) (P : F),
      @iter_enum_6f A B C D E F P = IterEnum6.F P) :=
  ⟨fun A B P => rfl,
   fun A B P => rfl,
   fun A B C P => rfl,
   fun A B C P => rfl,
   fun A B C P => rfl,
   fun A B C D P => rfl,
   fun A B C D P => rfl,
   fun A B C D P => rfl,
   fun A B C D P => rfl,
   fun A B C D E P => rfl,
   fun A B C D E P => rfl,
   fun A B C D E P => rfl,
   fun A B C D E P => rfl,
   fun A B C D E P => rfl,
   fun A B C D E F P => rfl,
   fun A B C D E F P => rfl,
   fun A B C D E F P => rfl,
   fun A B C D E F P => rfl,
   fun A B C D E F P => rfl,
   fun A B C D E F P => rfl⟩

/-- Claim C5: the union's `next` adds no failure mode: at every point of
the run (after any n advances) the produced signal equals the active
interior iterator's own signal at that point, unchanged -- in particular
it is `none` (end of sequence) exactly when the interior's `next` gives
`none`, and behavior after exhaustion is whatever the interior does. -/
theorem none_propagation :
    (∀ (I A B : Type) [Iterator A I] [Iterator B I] (n : Nat) (P : A),
      (Iterator.next (advance n (@iter_enum_2a B A P))).1 =
        (Iterator.next (advance n P)).1 ∧
      ((Iterator.next (advance n (@iter_enum_2a B A P))).1 = none ↔
        (Iterator.next (advance n P)).1 = none)) ∧
    (∀ (I A B : Type) [Iterator A I] [Iterator B I] (n : Nat) (P : B),
      (Iterator.next (advance n (@iter_enum_2b A B P))).1 =
        (Iterator.next (advance n P)).1 ∧
      ((Iterator.next (advance n (@iter_enum_2b A B P))).1 = none ↔
        (Iterator.next (advance n P)).1 = none)) ∧
    (∀ (I A B C : Type) [Iterator A I] [Iterator B I] [Iterator C I] (n : Nat) (P : A),
      (Iterator.next (advance n (@iter_enum_3a B C A P))).1 =
        (Iterator.next (advance n P)).1 ∧
      ((Iterator.next (advance n (@iter_enum_3a B C A P))).1 = none ↔
        (Iterator.next (advance n P)).1 = none)) ∧
    (∀ (I A B C : Type) [Iterator A I] [Iterator B I] [Iterator C I] (n : Nat) (P : B),
      (Iterator.next (advance n (@iter_enum_3b A C B P))).1 =
        (Iterator.next (advance n P)).1 ∧
      ((Iterator.next (advance n (@iter_enum_3b A C B P))).1 = none ↔
        (Iterator.next (advance n P)).1 = none)) ∧
    (∀ (I A B C : Type) [Iterator A I] [Iterator B I] [Iterator C I] (n : Nat) (P : C),
      (Iterator.next (advance n (@iter_enum_3c A B C P))).1 =
        (Iterator.next (advance n P)).1 ∧
      ((Iterator.next (advance n (@iter_enum_3c A B C P))).1 = none ↔
        (Iterator.next (advance n P)).1 = none)) ∧
    (∀ (I A B C D : Type) [Iterator A I] [Iterator B I] [Iterator C I] [Iterator D I] (n : Nat) (P : A),
      (Iterator.next (advance n (@iter_enum_4a B C D A P))).1 =
        (Iterator.next (advance n P)).1 ∧
      ((Iterator.next (advance n (@iter_enum_4a B C D A P))).1 = none ↔
        (Iterator.next (advance n P)).1 = none)) ∧
    (∀ (I A B C D : Type) [Iterator A I] [Iterator B I] [Iterator C I] [Iterator D I] (n : Nat) (P : B),
      (Iterator.next (advance n (@iter_enum_4b A C D B P))).1 =
        (Iterator.next (advance n P)).1 ∧
      ((Iterator.next (advance n (@iter_enum_4b A C D B P))).1 = none ↔
        (Iterator.next (advance n P)).1 = none)) ∧
    (∀ (I A B C D : Type) [Iterator A I] [Iterator B I] [Iterator C I] [Iterator D I] (n : Nat) (P : C),
      (Iterator.next (advance n (@iter_enum_4c A B D C P))).1 =
        (Iterator.next (advance n P)).1 ∧
      ((Iterator.next (advance n (@iter_enum_4c A B D C P))).1 = none ↔
        (Iterator.next (advance n P)).1 = none)) ∧
    (∀ (I A B C D : Type) [Iterator A I] [Iterator B I] [Iterator C I] [Iterator D I] (n : Nat) (P : D),
      (Iterator.next (advance n (@iter_enum_4d A B C D P))).1 =
        (Iterator.next (advance n P)).1 ∧
      ((Iterator.next (advance n (@iter_enum_4d A B C D P))).1 = none ↔
        (Iterator.next (advance n P)).1 = none)) ∧
    (∀ (I A B C D E : Type) [Iterator A I] [Iterator B I] [Iterator C I] [Iterator D I] [Iterator E I] (n : Nat) (P : A),
      (Iterator.next (advance n (@iter_enum_5a B C D E A P))).1 =
        (Iterator.next (advance n P)).1 ∧
      ((Iterator.next (advance n (@iter_enum_5a B C D E A P))).1 = none ↔
        (Iterator.next (advance n P)).1 = none)) ∧
    (∀ (I A B C D E : Type) [Iterator A I] [Iterator B I] [Iterator C I] [Iterator D I] [Iterator E I] (n : Nat) (P : B),
      (Iterator.next (advance n (@iter_enum_5b A C D E B P))).1 =
        (Iterator.next (advance n P)).1 ∧
      ((Iterator.next (advance n (@iter_enum_5b A C D E B P))).1 = none ↔
        (Iterator.next (advance n P)).1 = none)) ∧
    (∀ (I A B C D E : Type) [Iterator A I] [Iterator B I] [Iterator C I] [Iterator D I] [Iterator E I] (n : Nat) (P : C),
      (Iterator.next (advance n (@iter_enum_5c A B D E C P))).1 =
        (Iterator.next (advance n P)).1 ∧
      ((Iterator.next (advance n (@iter_enum_5c A B D E C P))).1 = none ↔
        (Iterator.next (advance n P)).1 = none)) ∧
    (∀ (I A B C D E : Type) [Iterator A I] [Iterator B I] [Iterator C I] [Iterator D I] [Iterator E I] (n : Nat) (P : D),
      (Iterator.next (advance n (@iter_enum_5d A B C E D P))).1 =
        (Iterator.next (advance n P)).1 ∧
      ((Iterator.next (advance n (@iter_enum_5d A B C E D P))).1 = none ↔
        (Iterator.next (advance n P)).1 = none)) ∧
    (∀ (I A B C D E : Type) [Iterator A I] [Iterator B I] [Iterator C I] [Iterator D I] [Iterator E I] (n : Nat) (P : E),
      (Iterator.next (advance n (@iter_enum_5e A B C D E P))).1 =
        (Iterator.next (advance n P)).1 ∧
      ((Iterator.next (advance n (@iter_enum_5e A B C D E P))).1 = none ↔
        (Iterator.next (advance n P)).1 = none)) ∧
    (∀ (I A B C D E F : Type) [Iterator A I] [Iterator B I] [Iterator C I] [Iterator D I] [Iterator E I] [Iterator F I] (n : Nat) (P : A),
      (Iterator.next (advance n (@iter_enum_6a B C D E F A P))).1 =
        (Iterator.next (advance n P)).1 ∧
      ((Iterator.next (advance n (@iter_enum_6a B C D E F A P))).1 = none ↔
        (Iterator.next (advance n P)).1 = none)) ∧
    (∀ (I A B C D E F : Type) [Iterator A I] [Iterator B I] [Iterator C I] [Iterator D I] [Iterator E I] [Iterator F I] (n : Nat) (P : B),
      (Iterator.next (advance n (@iter_enum_6b A C D E F B P))).1 =
        (Iterator.next (advance n P)).1 ∧
      ((Iterator.next (advance n (@iter_enum_6b A C D E F B P))).1 = none ↔
        (Iterator.next (advance n P)).1 = none)) ∧
    (∀ (I A B C D E F : Type) [Iterator A I] [Iterator B I] [Iterator C I] [Iterator D I] [Iterator E I] [Iterator F I] (n : Nat) (P : C),
      (Iterator.next (advance n (@iter_enum_6c A B D E F C P))).1 =
        (Iterator.next (advance n P)).1 ∧
      ((Iterator.next (advance n (@iter_enum_6c A B D E F C P))).1 = none ↔
        (Iterator.next (advance n P)).1 = none)) ∧
    (∀ (I A B C D E F : Type) [Iterator A I] [Iterator B I] [Iterator C I] [Iterator D I] [Iterator E I] [Iterator F I] (n : Nat) (P : D),
      (Iterator.next (advance n (@iter_enum_6d A B C E F D P))).1 =
        (Iterator.next (advance n P)).1 ∧
      ((Iterator.next (advance n (@iter_enum_6d A B C E F D P))).1 = none ↔
        (Iterator.next (advance n P)).1 = none)) ∧
    (∀ (I A B C D E F : Type) [Iterator A I] [Iterator B I] [Iterator C I] [Iterator D I] [Iterator E I] [Iterator F I] (n : Nat) (P : E),
      (Iterator.next (advance n (@iter_enum_6e A B C D F E P))).1 =
        (Iterator.next (advance n P)).1 ∧
      ((Iterator.next (advance n (@iter_enum_6e A B C D F E P))).1 = none ↔
        (Iterator.next (advance n P)).1 = none)) ∧
    (∀ (I A B C D E F : Type) [Iterator A I] [Iterator B I] [Iterator C I] [Iterator D I] [Iterator E I] [Iterator F I] (n : Nat) (P : F),
      (Iterator.next (advance n (@iter_enum_6f A B C D E F P))).1 =
        (Iterator.next (advance n P)).1 ∧
      ((Iterator.next (advance n (@iter_enum_6f A B C D E F P))).1 = none ↔
        (Iterator.next (advance n P)).1 = none)) :=
  ⟨fun I A B iA iB n P => by
     rw [advance_of_simulates (@iter_enum_2a B A) sim_2a n P,
       sim_2a (advance n P)]
     exact ⟨rfl, Iff.rfl⟩,
   fun I A B iA iB n P => by
     rw [advance_of_simulates (@iter_enum_2b A B) sim_2b n P,
       sim_2b (advance n P)]
     exact ⟨rfl, Iff.rfl⟩,
   fun I A B C iA iB iC n P => by
     rw [advance_of_simulates (@iter_enum_3a B C A) sim_3a n P,
       sim_3a (advance n P)]
     exact ⟨rfl, Iff.rfl⟩,
   fun I A B C iA iB iC n P => by
     rw [advance_of_simulates (@iter_enum_3b A C B) sim_3b n P,
       sim_3b (advance n P)]
     exact ⟨rfl, Iff.rfl⟩,
   fun I A B C iA iB iC n P => by
     rw [advance_of_simulates (@iter_enum_3c A B C) sim_3c n P,
       sim_3c (advance n P)]
     exact ⟨rfl, Iff.rfl⟩,
   fun I A B C D iA iB iC iD n P => by
     rw [advance_of_simulates (@iter_enum_4a B C D A) sim_4a n P,
       sim_4a (advance n P)]
     exact ⟨rfl, Iff.rfl⟩,
   fun I A B C D iA iB iC iD n P => by
     rw [advance_of_simulates (@iter_enum_4b A C D B) sim_4b n P,
       sim_4b (advance n P)]
     exact ⟨rfl, Iff.rfl⟩,
   fun I A B C D iA iB iC iD n P => by
     rw [advance_of_simulates (@iter_enum_4c A B D C) sim_4c n P,
       sim_4c (advance n P)]
     exact ⟨rfl, Iff.rfl⟩,
   fun I A B C D iA iB iC iD n P => by
     rw [advance_of_simulates (@iter_enum_4d A B C D) sim_4d n P,
       sim_4d (advance n P)]
     exact ⟨rfl, Iff.rfl⟩,
   fun I A B C D E iA iB iC iD iE n P => by
     rw [advance_of_simulates (@iter_enum_5a B C D E A) sim_5a n P,
       sim_5a (advance n P)]
     exact ⟨rfl, Iff.rfl⟩,
   fun I A B C D E iA iB iC iD iE n P => by
     rw [advance_of_simulates (@iter_enum_5b A C D E B) sim_5b n P,
       sim_5b (advance n P)]
     exact ⟨rfl, Iff.rfl⟩,
   fun I A B C D E iA iB iC iD iE n P => by
     rw [advance_of_simulates (@iter_enum_5c A B D E C) sim_5c n P,
       sim_5c (advance n P)]
     exact ⟨rfl, Iff.rfl⟩,
   fun I A B C D E iA iB iC iD iE n P => by
     rw [advance_of_simulates (@iter_enum_5d A B C E D) sim_5d n P,
       sim_5d (advance n P)]
     exact ⟨rfl, Iff.rfl⟩,
   fun I A B C D E iA iB iC iD iE n P => by
     rw [advance_of_simulates (@iter_enum_5e A B C D E) sim_5e n P,
       sim_5e (advance n P)]
     exact ⟨rfl, Iff.rfl⟩,
   fun I A B C D E F iA iB iC iD iE iF n P => by
     rw [advance_of_simulates (@iter_enum_6a B C D E F A) sim_6a n P,
       sim_6a (advance n P)]
     exact ⟨rfl, Iff.rfl⟩,
   fun I A B C D E F iA iB iC iD iE iF n P => by
     rw [advance_of_simulates (@iter_enum_6b A C D E F B) sim_6b n P,
       sim_6b (advance n P)]
     exact ⟨rfl, Iff.rfl⟩,
   fun I A B C D E F iA iB iC iD iE iF n P => by
     rw [advance_of_simulates (@iter_enum_6c A B D E F C) sim_6c n P,
       sim_6c (advance n P)]
     exact ⟨rfl, Iff.rfl⟩,
   fun I A B C D E F iA iB iC iD iE iF n P => by
     rw [advance_of_simulates (@iter_enum_6d A B C E F D) sim_6d n P,
       sim_6d (advance n P)]
     exact ⟨rfl, Iff.rfl⟩,
   fun I A B C D E F iA iB iC iD iE iF n P => by
     rw [advance_of_simulates (@iter_enum_6e A B C D F E) sim_6e n P,
       sim_6e (advance n P)]
     exact ⟨rfl, Iff.rfl⟩,
   fun I A B C D E F iA iB iC iD iE iF n P => by
     rw [advance_of_simulates (@iter_enum_6f A B C D E F) sim_6f n P,
       sim_6f (advance n P)]
     exact ⟨rfl, Iff.rfl⟩⟩

/-- Claim C9: wrap followed by unwrap is the identity: for every arity and
slot k, constructing via the slot-k wrap operation and pattern-matching
the slot-k variant back out recovers exactly the original iterator,
untransformed. -/
theorem unwrap_wrap_id :
    (∀ (A B : Type) (P : A),
      IterEnum2.unwrapA (@iter_enum_2a B A P) = some P) ∧
    (∀ (A B : Type) (P : B),
      IterEnum2.unwrapB (@iter_enum_2b A B P) = some P) ∧
    (∀ (A B C : Type) (P : A),
      IterEnum3.unwrapA (@iter_enum_3a B C A P) = some P) ∧
    (∀ (A B C : Type) (P : B),
      IterEnum3.unwrapB (@iter_enum_3b A C B P) = some P) ∧
    (∀ (A B C : Type) (P : C),
      IterEnum3.unwrapC (@iter_enum_3c A B C P) = some P) ∧
    (∀ (A B C D : Type) (P : A),
      IterEnum4.unwrapA (@iter_enum_4a B C D A P) = some P) ∧
    (∀ (A B C D : Type) (P : B),
      IterEnum4.unwrapB (@iter_enum_4b A C D B P) = some P) ∧
    (∀ (A B C D : Type) (P : C),
      IterEnum4.unwrapC (@iter_enum_4c A B D C P) = some P) ∧
    (∀ (A B C D : Type) (P : D),
      IterEnum4.unwrapD (@iter_enum_4d A B C D P) = some P) ∧
    (∀ (A B C D E : Type) (P : A),
      IterEnum5.unwrapA (@iter_enum_5a B C D E A P) = some P) ∧
    (∀ (A B C D E : Type) (P : B),
      IterEnum5.unwrapB (@iter_enum_5b A C D E B P) = some P) ∧
    (∀ (A B C D E : Type) (P : C),
      IterEnum5.unwrapC (@iter_enum_5c A B D E C P) = some P) ∧
    (∀ (A B C D E : Type) (P : D),
      IterEnum5.unwrapD (@iter_enum_5d A B C E D P) = some P) ∧
    (∀ (A B C D E : Type) (P : E),
      IterEnum5.unwrapE (@iter_enum_5e A B C D E P) = some P) ∧
    (∀ (A B C D E F : Type) (P : A),
      IterEnum6.unwrapA (@iter_enum_6a B C D E F A P) = some P) ∧
    (∀ (A B C D E F : Type) (P : B),
      IterEnum6.unwrapB (@iter_enum_6b A C D E F B P) = some P) ∧
    (∀ (A B C D E F : Type) (P : C),
      IterEnum6.unwrapC (@iter_enum_6c A B D E F C P) = some P) ∧
    (∀ (A B C D E F : Type) (P : D),
      IterEnum6.unwrapD (@iter_enum_6d A B C E F D P) = some P) ∧
    (∀ (A B C D E F : Type) (P : E),
      IterEnum6.unwrapE (@iter_enum_6e A B C D F E P) = some P) ∧
    (∀ (A B C D E F : Type) (P : F),
      IterEnum6.unwrapF (@iter_enum_6f A B C D E F P) = some P) :=
  ⟨fun A B P => rfl,
   fun A B P => rfl,
   fun A B C P => rfl,
   fun A B C P => rfl,
   fun A B C P => rfl,
   fun A B C D P => rfl,
   fun A B C D P => rfl,
   fun A B C D P => rfl,
   fun A B C D P => rfl,
   fun A B C D E P => rfl,
   fun A B C D E P => rfl,
   fun A B C D E P => rfl,
   fun A B C D E P => rfl,
   fun A B C D E P => rfl,
   fun A B C D E F P => rfl,
   fun A B C D E F P => rfl,
   fun A B C D E F P => rfl,
   fun A B C D E F P => rfl,
   fun A B C D E F P => rfl,
   fun A B C D E F P => rfl⟩

theorem clone_collect_2 {I A B : Type} [Iterator A I] [Iterator B I] [Clone A] [Clone B]
    (hA : ∀ (x : A) (n : Nat), collect n (Clone.clone x) = collect n x)
    (hB : ∀ (x : B) (n : Nat), collect n (Clone.clone x) = collect n x)
    : ∀ (e : IterEnum2 A B) (n : Nat), collect n (Clone.clone e) = collect n e := by
  intro e n
  cases e with
  | A x =>
    show collect n (IterEnum2.A (Clone.clone x)) = collect n (IterEnum2.A x)
    calc collect n (IterEnum2.A (Clone.clone x)) = collect n (Clone.clone x) :=
          collect_of_simulates (@iter_enum_2a B A) sim_2a n (Clone.clone x)
      _ = collect n x := hA x n
      _ = collect n (IterEnum2.A x) := (collect_of_simulates (@iter_enum_2a B A) sim_2a n x).symm
  | B x =>
    show collect n (IterEnum2.B (Clone.clone x)) = collect n (IterEnum2.B x)
    calc collect n (IterEnum2.B (Clone.clone x)) = collect n (Clone.clone x) :=
          collect_of_simulates (@iter_enum_2b A B) sim_2b n (Clone.clone x)
      _ = collect n x := hB x n
      _ = collect n (IterEnum2.B x) := (collect_of_simulates (@iter_enum_2b A B) sim_2b n x).symm

theorem clone_collect_3 {I A B C : Type} [Iterator A I] [Iterator B I] [Iterator C I] [Clone A] [Clone B] [Clone C]
    (hA : ∀ (x : A) (n : Nat), collect n (Clone.clone x) = collect n x)
    (hB : ∀ (x : B) (n : Nat), collect n (Clone.clone x) = collect n x)
    (hC : ∀ (x : C) (n : Nat), collect n (Clone.clone x) = collect n x)
    : ∀ (e : IterEnum3 A B C) (n : Nat), collect n (Clone.clone e) = collect n e := by
  intro e n
  cases e with
  | A x =>
    show collect n (IterEnum3.A (Clone.clone x)) = collect n (IterEnum3.A x)
    calc collect n (IterEnum3.A (Clone.clone x)) = collect n (Clone.clone x) :=
          collect_of_simulates (@iter_enum_3a B C A) sim_3a n (Clone.clone x)
      _ = collect n x := hA x n
      _ = collect n (IterEnum3.A x) := (collect_of_simulates (@iter_enum_3a B C A) sim_3a n x).symm
  | B x =>
    show collect n (IterEnum3.B (Clone.clone x)) = collect n (IterEnum3.B x)
    calc collect n (IterEnum3.B (Clone.clone x)) = collect n (Clone.clone x) :=
          collect_of_simulates (@iter_enum_3b A C B) sim_3b n (Clone.clone x)
      _ = collect n x := hB x n
      _ = collect n (IterEnum3.B x) := (collect_of_simulates (@iter_enum_3b A C B) sim_3b n x).symm
  | C x =>
    show collect n (IterEnum3.C (Clone.clone x)) = collect n (IterEnum3.C x)
    calc collect n (IterEnum3.C (Clone.clone x)) = collect n (Clone.clone x) :=
          collect_of_simulates (@iter_enum_3c A B C) sim_3c n (Clone.clone x)
      _ = collect n x := hC x n
      _ = collect n (IterEnum3.C x) := (collect_of_simulates (@iter_enum_3c A B C) sim_3c n x).symm

theorem clone_collect_4 {I A B C D : Type} [Iterator A I] [Iterator B I] [Iterator C I] [Iterator D I] [Clone A] [Clone B] [Clone C] [Clone D]
    (hA : ∀ (x : A) (n : Nat), collect n (Clone.clone x) = collect n x)
    (hB : ∀ (x : B) (n : Nat), collect n (Clone.clone x) = collect n x)
    (hC : ∀ (x : C) (n : Nat), collect n (Clone.clone x) = collect n x)
    (hD : ∀ (x : D) (n : Nat), collect n (Clone.clone x) = collect n x)
    : ∀ (e : IterEnum4 A B C D) (n : Nat), collect n (Clone.clone e) = collect n e := by
  intro e n
  cases e with
  | A x =>
    show collect n (IterEnum4.A (Clone.clone x)) = collect n (IterEnum4.A x)
    calc collect n (IterEnum4.A (Clone.clone x)) = collect n (Clone.clone x) :=
          collect_of_simulates (@iter_enum_4a B C D A) sim_4a n (Clone.clone x)
      _ = collect n x := hA x n
      _ = collect n (IterEnum4.A x) := (collect_of_simulates (@iter_enum_4a B C D A) sim_4a n x).symm
  | B x =>
    show collect n (IterEnum4.B (Clone.clone x)) = collect n (IterEnum4.B x)
    calc collect n (IterEnum4.B (Clone.clone x)) = collect n (Clone.clone x) :=
          collect_of_simulates (@iter_enum_4b A C D B) sim_4b n (Clone.clone x)
      _ = collect n x := hB x n
      _ = collect n (IterEnum4.B x) := (collect_of_simulates (@iter_enum_4b A C D B) sim_4b n x).symm
  | C x =>
    show collect n (IterEnum4.C (Clone.clone x)) = collect n (IterEnum4.C x)
    calc collect n (IterEnum4.C (Clone.clone x)) = collect n (Clone.clone x) :=
          collect_of_simulates (@iter_enum_4c A B D C) sim_4c n (Clone.clone x)
      _ = collect n x := hC x n
      _ = collect n (IterEnum4.C x) := (collect_of_simulates (@iter_enum_4c A B D C) sim_4c n x).symm
  | D x =>
    show collect n (IterEnum4.D (Clone.clone x)) = collect n (IterEnum4.D x)
    calc collect n (IterEnum4.D (Clone.clone x)) = collect n (Clone.clone x) :=
          collect_of_simulates (@iter_enum_4d A B C D) sim_4d n (Clone.clone x)
      _ = collect n x := hD x n
      _ = collect n (IterEnum4.D x) := (collect_of_simulates (@iter_enum_4d A B C D) sim_4d n x).symm

theorem clone_collect_5 {I A B C D E : Type} [Iterator A I] [Iterator B I] [Iterator C I] [Iterator D I] [Iterator E I] [Clone A] [Clone B] [Clone C] [Clone D] [Clone E]
    (hA : ∀ (x : A) (n : Nat), collect n (Clone.clone x) = collect n x)
    (hB : ∀ (x : B) (n : Nat), collect n (Clone.clone x) = collect n x)
    (hC : ∀ (x : C) (n : Nat), collect n (Clone.clone x) = collect n x)
    (hD : ∀ (x : D) (n : Nat), collect n (Clone.clone x) = collect n x)
    (hE : ∀ (x : E) (n : Nat), collect n (Clone.clone x) = collect n x)
    : ∀ (e : IterEnum5 A B C D E) (n : Nat), collect n (Clone.clone e) = collect n e := by
  intro e n
  cases e with
  | A x =>
    show collect n (IterEnum5.A (Clone.clone x)) = collect n (IterEnum5.A x)
    calc collect n (IterEnum5.A (Clone.clone x)) = collect n (Clone.clone x) :=
          collect_of_simulates (@iter_enum_5a B C D E A) sim_5a n (Clone.clone x)
      _ = collect n x := hA x n
      _ = collect n (IterEnum5.A x) := (collect_of_simulates (@iter_enum_5a B C D E A) sim_5a n x).symm
  | B x =>
    show collect n (IterEnum5.B (Clone.clone x)) = collect n (IterEnum5.B x)
    calc collect n (IterEnum5.B (Clone.clone x)) = collect n (Clone.clone x) :=
          collect_of_simulates (@iter_enum_5b A C D E B) sim_5b n (Clone.clone x)
      _ = collect n x := hB x n
      _ = collect n (IterEnum5.B x) := (collect_of_simulates (@iter_enum_5b A C D E B) sim_5b n x).symm
  | C x =>
    show collect n (IterEnum5.C (Clone.clone x)) = collect n (IterEnum5.C x)
    calc collect n (IterEnum5.C (Clone.clone x)) = collect n (Clone.clone x) :=
          collect_of_simulates (@iter_enum_5c A B D E C) sim_5c n (Clone.clone x)
      _ = collect n x := hC x n
      _ = collect n (IterEnum5.C x) := (collect_of_simulates (@iter_enum_5c A B D E C) sim_5c n x).symm
  | D x =>
    show collect n (IterEnum5.D (Clone.clone x)) = collect n (IterEnum5.D x)
    calc collect n (IterEnum5.D (Clone.clone x)) = collect n (Clone.clone x) :=
          collect_of_simulates (@iter_enum_5d A B C E D) sim_5d n (Clone.clone x)
      _ = collect n x := hD x n
      _ = collect n (IterEnum5.D x) := (collect_of_simulates (@iter_enum_5d A B C E D) sim_5d n x).symm
  | E x =>
    show collect n (IterEnum5.E (Clone.clone x)) = collect n (IterEnum5.E x)
    calc collect n (IterEnum5.E (Clone.clone x)) = collect n (Clone.clone x) :=
          collect_of_simulates (@iter_enum_5e A B C D E) sim_5e n (Clone.clone x)
      _ = collect n x := hE x n
      _ = collect n (IterEnum5.E x) := (collect_of_simulates (@iter_enum_5e A B C D E) sim_5e n x).symm

theorem clone_collect_6 {I A B C D E F : Type} [Iterator A I] [Iterator B I] [Iterator C I] [Iterator D I] [Iterator E I] [Iterator F I] [Clone A] [Clone B] [Clone C] [Clone D] [Clone E] [Clone F]
    (hA : ∀ (x : A) (n : Nat), collect n (Clone.clone x) = collect n x)
    (hB : ∀ (x : B) (n : Nat), collect n (Clone.clone x) = collect n x)
    (hC : ∀ (x : C) (n : Nat), collect n (Clone.clone x) = collect n x)
    (hD : ∀ (x : D) (n : Nat), collect n (Clone.clone x) = collect n x)
    (hE : ∀ (x : E) (n : Nat), collect n (Clone.clone x) = collect n x)
    (hF : ∀ (x : F) (n : Nat), collect n (Clone.clone x) = collect n x)
    : ∀ (e : IterEnum6 A B C D E F) (n : Nat), collect n (Clone.clone e) = collect n e := by
  intro e n
  cases e with
  | A x =>
    show collect n (IterEnum6.A (Clone.clone x)) = collect n (IterEnum6.A x)
    calc collect n (IterEnum6.A (Clone.clone x)) = collect n (Clone.clone x) :=
          collect_of_simulates (@iter_enum_6a B C D E F A) sim_6a n (Clone.clone x)
      _ = collect n x := hA x n
      _ = collect n (IterEnum6.A x) := (collect_of_simulates (@iter_enum_6a B C D E F A) sim_6a n x).symm
  | B x =>
    show collect n (IterEnum6.B (Clone.clone x)) = collect n (IterEnum6.B x)
    calc collect n (IterEnum6.B (Clone.clone x)) = collect n (Clone.clone x) :=
          collect_of_simulates (@iter_enum_6b A C D E F B) sim_6b n (Clone.clone x)
      _ = collect n x := hB x n
      _ = collect n (IterEnum6.B x) := (collect_of_simulates (@iter_enum_6b A C D E F B) sim_6b n x).symm
  | C x =>
    show collect n (IterEnum6.C (Clone.clone x)) = collect n (IterEnum6.C x)
    calc collect n (IterEnum6.C (Clone.clone x)) = collect n (Clone.clone x) :=
          collect_of_simulates (@iter_enum_6c A B D E F C) sim_6c n (Clone.clone x)
      _ = collect n x := hC x n
      _ = collect n (IterEnum6.C x) := (collect_of_simulates (@iter_enum_6c A B D E F C) sim_6c n x).symm
  | D x =>
    show collect n (IterEnum6.D (Clone.clone x)) = collect n (IterEnum6.D x)
    calc collect n (IterEnum6.D (Clone.clone x)) = collect n (Clone.clone x) :=
          collect_of_simulates (@iter_enum_6d A B C E F D) sim_6d n (Clone.clone x)
      _ = collect n x := hD x n
      _ = collect n (IterEnum6.D x) := (collect_of_simulates (@iter_enum_6d A B C E F D) sim_6d n x).symm
  | E x =>
    show collect n (IterEnum6.E (Clone.clone x)) = collect n (IterEnum6.E x)
    calc collect n (IterEnum6.E (Clone.clone x)) = collect n (Clone.clone x) :=
          collect_of_simulates (@iter_enum_6e A B C D F E) sim_6e n (Clone.clone x)
      _ = collect n x := hE x n
      _ = collect n (IterEnum6.E x) := (collect_of_simulates (@iter_enum_6e A B C D F E) sim_6e n x).symm
  | F x =>
    show collect n (IterEnum6.F (Clone.clone x)) = collect n (IterEnum6.F x)
    calc collect n (IterEnum6.F (Clone.clone x)) = collect n (Clone.clone x) :=
          collect_of_simulates (@iter_enum_6f A B C D E F) sim_6f n (Clone.clone x)
      _ = collect n x := hF x n
      _ = collect n (IterEnum6.F x) := (collect_of_simulates (@iter_enum_6f A B C D E F) sim_6f n x).symm

/-- Claim C10: every union type has the derived `Clone`: cloning preserves
the active slot, the clone's interior is the clone of the original's
interior, and whenever the interior `Clone` instances preserve the
produced sequence (as Rust's derived deep clones do), the cloned union
produces the same remaining sequence as the original. In the state-passing
embedding values are immutable, so advancing the clone cannot change the
original's state. -/
theorem clone_union_behavior :
    (∀ (I A B : Type) [Iterator A I] [Iterator B I] [Clone A] [Clone B],
      (∀ x : A, Clone.clone (IterEnum2.A x : IterEnum2 A B) =
        IterEnum2.A (Clone.clone x)) ∧
      (∀ x : B, Clone.clone (IterEnum2.B x : IterEnum2 A B) =
        IterEnum2.B (Clone.clone x)) ∧
      (∀ e : IterEnum2 A B, IterEnum2.tag (Clone.clone e) = IterEnum2.tag e) ∧
      ((∀ (x : A) (n : Nat), collect n (Clone.clone x) = collect n x) →
       (∀ (x : B) (n : Nat), collect n (Clone.clone x) = collect n x) →
       ∀ (e : IterEnum2 A B) (n : Nat), collect n (Clone.clone e) = collect n e)) ∧
    (∀ (I A B C : Type) [Iterator A I] [Iterator B I] [Iterator C I] [Clone A] [Clone B] [Clone C],
      (∀ x : A, Clone.clone (IterEnum3.A x : IterEnum3 A B C) =
        IterEnum3.A (Clone.clone x)) ∧
      (∀ x : B, Clone.clone (IterEnum3.B x : IterEnum3 A B C) =
        IterEnum3.B (Clone.clone x)) ∧
      (∀ x : C, Clone.clone (IterEnum3.C x : IterEnum3 A B C) =
        IterEnum3.C (Clone.clone x)) ∧
      (∀ e : IterEnum3 A B C, IterEnum3.tag (Clone.clone e) = IterEnum3.tag e) ∧
      ((∀ (x : A) (n : Nat), collect n (Clone.clone x) = collect n x) →
       (∀ (x : B) (n : Nat), collect n (Clone.clone x) = collect n x) →
       (∀ (x : C) (n : Nat), collect n (Clone.clone x) = collect n x) →
       ∀ (e : IterEnum3 A B C) (n : Nat), collect n (Clone.clone e) = collect n e)) ∧
    (∀ (I A B C D : Type) [Iterator A I] [Iterator B I] [Iterator C I] [Iterator D I] [Clone A] [Clone B] [Clone C] [Clone D],
      (∀ x : A, Clone.clone (IterEnum4.A x : IterEnum4 A B C D) =
        IterEnum4.A (Clone.clone x)) ∧
      (∀ x : B, Clone.clone (IterEnum4.B x : IterEnum4 A B C D) =
        IterEnum4.B (Clone.clone x)) ∧
      (∀ x : C, Clone.clone (IterEnum4.C x : IterEnum4 A B C D) =
        IterEnum4.C (Clone.clone x)) ∧
      (∀ x : D, Clone.clone (IterEnum4.D x : IterEnum4 A B C D) =
        IterEnum4.D (Clone.clone x)) ∧
      (∀ e : IterEnum4 A B C D, IterEnum4.tag (Clone.clone e) = IterEnum4.tag e) ∧
      ((∀ (x : A) (n : Nat), collect n (Clone.clone x) = collect n x) →
       (∀ (x : B) (n : Nat), collect n (Clone.clone x) = collect n x) →
       (∀ (x : C) (n : Nat), collect n (Clone.clone x) = collect n x) →
       (∀ (x : D) (n : Nat), collect n (Clone.clone x) = collect n x) →
       ∀ (e : IterEnum4 A B C D) (n : Nat), collect n (Clone.clone e) = collect n e)) ∧
    (∀ (I A B C D E : Type) [Iterator A I] [Iterator B I] [Iterator C I] [Iterator D I] [Iterator E I] [Clone A] [Clone B] [Clone C] [Clone D] [Clone E],
      (∀ x : A, Clone.clone (IterEnum5.A x : IterEnum5 A B C D E) =
        IterEnum5.A (Clone.clone x)) ∧
      (∀ x : B, Clone.clone (IterEnum5.B x : IterEnum5 A B C D E) =
        IterEnum5.B (Clone.clone x)) ∧
      (∀ x : C, Clone.clone (IterEnum5.C x : IterEnum5 A B C D E) =
        IterEnum5.C (Clone.clone x)) ∧
      (∀ x : D, Clone.clone (IterEnum5.D x : IterEnum5 A B C D E) =
        IterEnum5.D (Clone.clone x)) ∧
      (∀ x : E, Clone.clone (IterEnum5.E x : IterEnum5 A B C D E) =
        IterEnum5.E (Clone.clone x)) ∧
      (∀ e : IterEnum5 A B C D E, IterEnum5.tag (Clone.clone e) = IterEnum5.tag e) ∧
      ((∀ (x : A) (n : Nat), collect n (Clone.clone x) = collect n x) →
       (∀ (x : B) (n : Nat), collect n (Clone.clone x) = collect n x) →
       (∀ (x : C) (n : Nat), collect n (Clone.clone x) = collect n x) →
       (∀ (x : D) (n : Nat), collect n (Clone.clone x) = collect n x) →
       (∀ (x : E) (n : Nat), collect n (Clone.clone x) = collect n x) →
       ∀ (e : IterEnum5 A B C D E) (n : Nat), collect n (Clone.clone e) = collect n e)) ∧
    (∀ (I A B C D E F : Type) [Iterator A I] [Iterator B I] [Iterator C I] [Iterator D I] [Iterator E I] [Iterator F I] [Clone A] [Clone B] [Clone C] [Clone D] [Clone E] [Clone F],
      (∀ x : A, Clone.clone (IterEnum6.A x : IterEnum6 A B C D E F) =
        IterEnum6.A (Clone.clone x)) ∧
      (∀ x : B, Clone.clone (IterEnum6.B x : IterEnum6 A B C D E F) =
        IterEnum6.B (Clone.clone x)) ∧
      (∀ x : C, Clone.clone (IterEnum6.C x : IterEnum6 A B C D E F) =
        IterEnum6.C (Clone.clone x)) ∧
      (∀ x : D, Clone.clone (IterEnum6.D x : IterEnum6 A B C D E F) =
        IterEnum6.D (Clone.clone x)) ∧
      (∀ x : E, Clone.clone (IterEnum6.E x : IterEnum6 A B C D E F) =
        IterEnum6.E (Clone.clone x)) ∧
      (∀ x : F, Clone.clone (IterEnum6.F x : IterEnum6 A B C D E F) =
        IterEnum6.F (Clone.clone x)) ∧
      (∀ e : IterEnum6 A B C D E F, IterEnum6.tag (Clone.clone e) = IterEnum6.tag e) ∧
      ((∀ (x : A) (n : Nat), collect n (Clone.clone x) = collect n x) →
       (∀ (x : B) (n : Nat), collect n (Clone.clone x) = collect n x) →
       (∀ (x : C) (n : Nat), collect n (Clone.clone x) = collect n x) →
       (∀ (x : D) (n : Nat), collect n (Clone.clone x) = collect n x) →
       (∀ (x : E) (n : Nat), collect n (Clone.clone x) = collect n x) →
       (∀ (x : F) (n : Nat), collect n (Clone.clone x) = collect n x) →
       ∀ (e : IterEnum6 A B C D E F) (n : Nat), collect n (Clone.clone e) = collect n e)) :=
  ⟨fun I A B iA iB cA cB =>
     ⟨fun x => rfl, fun x => rfl, fun e => by cases e <;> rfl, clone_collect_2⟩,
   fun I A B C iA iB iC cA cB cC =>
     ⟨fun x => rfl, fun x => rfl, fun x => rfl, fun e => by cases e <;> rfl, clone_collect_3⟩,
   fun I A B C D iA iB iC iD cA cB cC cD =>
     ⟨fun x => rfl, fun x => rfl, fun x => rfl, fun x => rfl, fun e => by cases e <;> rfl, clone_collect_4⟩,
   fun I A B C D E iA iB iC iD iE cA cB cC cD cE =>
     ⟨fun x => rfl, fun x => rfl, fun x => rfl, fun x => rfl, fun x => rfl, fun e => by cases e <;> rfl, clone_collect_5⟩,
   fun I A B C D E F iA iB iC iD iE iF cA cB cC cD cE cF =>
     ⟨fun x => rfl, fun x => rfl, fun x => rfl, fun x => rfl, fun x => rfl, fun x => rfl, fun e => by cases e <;> rfl, clone_collect_6⟩⟩

/-- Claim C6: despite the naming inconsistency in the 6-variant instantiation
(the slot-F wrap's before-list reads `(A, B, C, D, F)`, a duplicate `F` where
`E` was clearly meant, so the method's fifth type parameter is merely named
`F`), `iter_enum_6f` behaves externally exactly like every other wrap
operation: applied to an iterator P it returns the `IterEnum6` with P
installed at slot F (tag 5, recoverable by matching slot F), and collecting
the result equals collecting P directly at every fuel. -/
theorem iter_enum_6f_external_behavior :
    ∀ (I A B C D E F : Type) [Iterator A I] [Iterator B I] [Iterator C I]
      [Iterator D I] [Iterator E I] [Iterator F I] (P : F),
      @iter_enum_6f A B C D E F P = IterEnum6.F P ∧
      IterEnum6.unwrapF (@iter_enum_6f A B C D E F P) = some P ∧
      IterEnum6.tag (@iter_enum_6f A B C D E F P) = 5 ∧
      ∀ n : Nat, collect n (@iter_enum_6f A B C D E F P) = collect n P :=
  fun I A B C D E F iA iB iC iD iE iF P =>
    ⟨rfl, rfl, rfl,
     fun n => collect_of_simulates (@iter_enum_6f A B C D E F) sim_6f n P⟩

/-! ## The crate's tests (`mod tests`) -/

/-- The tests' predicate `|i| i % 2 == 0`. -/
def evenPred : Int → Bool := fun i => i % 2 == 0

/-- The `if_branch` test's closure `eval`: `true` wraps `0..10` at slot A,
`false` wraps `(0..10).filter(|i| i % 2 == 0)` at slot B. -/
def evalIf (b : Bool) : IterEnum2 RangeIter RangeFilter :=
  if b then @iter_enum_2a RangeFilter RangeIter ⟨0, 10⟩
  else @iter_enum_2b RangeIter RangeFilter ⟨⟨0, 10⟩, evenPred⟩

/-- Claim C7: counting the elements of `evalIf true` yields exactly 10 and of
`evalIf false` exactly 5. The fuel only needs to reach exhaustion (the 10
resp. 5 yielded elements plus the terminating `next` call); any extra fuel
changes nothing. -/
theorem if_branch_counts :
    (∀ m : Nat, count (11 + m) (evalIf true) = 10) ∧
    (∀ m : Nat, count (6 + m) (evalIf false) = 5) := by
  constructor
  · intro m
    show (collect (11 + m) (evalIf true)).length = 10
    rw [collect_stable 11 (evalIf true) (by decide) m]
    decide
  · intro m
    show (collect (6 + m) (evalIf false)).length = 5
    rw [collect_stable 6 (evalIf false) (by decide) m]
    decide

/-- `iterator_of_iterators` test, inner union at slot A: `0..1`. -/
def nestedA : IterEnum3 RangeIter RangeMap RangeFilter :=
  @iter_enum_3a RangeMap RangeFilter RangeIter ⟨0, 1⟩

/-- Inner union at slot B: `(0..2).map(|i| i - 1)`. -/
def nestedB : IterEnum3 RangeIter RangeMap RangeFilter :=
  @iter_enum_3b RangeIter RangeFilter RangeMap ⟨⟨0, 2⟩, fun i => i - 1⟩

/-- Inner union at slot C: `(0..3).filter(|i| i % 2 == 0)`. -/
def nestedC : IterEnum3 RangeIter RangeMap RangeFilter :=
  @iter_enum_3c RangeIter RangeMap RangeFilter ⟨⟨0, 3⟩, evenPred⟩

/-- The test's outer sequence (built in the source from `empty`, `chain`,
`once`): exactly the three union-typed elements, in order. -/
def nestedSeq : List (IterEnum3 RangeIter RangeMap RangeFilter) :=
  [nestedA, nestedB, nestedC]

/-- Claim C8: summing each inner union fully and folding those sums together
yields exactly 1, that is 0 + (-1 + 0) + (0 + 2) = 1. Fuel beyond exhaustion
(3 outer elements; at most 2 inner elements each) changes nothing. -/
theorem iterator_of_iterators_sum :
    ∀ m : Nat,
      (collect (4 + m) nestedSeq).foldl (fun sum it => sum + sumIter (10 + m) it) 0 = 1 := by
  intro m
  rw [collect_stable 4 nestedSeq (by decide) m]
  show [nestedA, nestedB, nestedC].foldl (fun sum it => sum + sumIter (10 + m) it) 0 = 1
  simp only [List.foldl, sumIter]
  rw [collect_stable 10 nestedA (by decide) m, collect_stable 10 nestedB (by decide) m,
    collect_stable 10 nestedC (by decide) m]
  decide

/-! ## Concrete instantiations of the claim theorems, at iterators from the
tests (showing the quantified statements are inhabited and evaluate) -/

/-- `collect_wrap_eq` at slot A of the arity-2 union, over the range `0..3`. -/
theorem collect_wrap_eq_witness :
    collect 5 (@iter_enum_2a RangeFilter RangeIter ⟨0, 3⟩) =
      collect 5 (⟨0, 3⟩ : RangeIter) :=
  collect_wrap_eq.1 Int RangeIter RangeFilter 5 ⟨0, 3⟩

/-- `next_wrap_step` at slot A of the arity-2 union, over the range `0..3`. -/
theorem next_wrap_step_witness :
    Iterator.next (@iter_enum_2a RangeFilter RangeIter ⟨0, 3⟩) =
      ((Iterator.next (⟨0, 3⟩ : RangeIter)).1,
        @iter_enum_2a RangeFilter RangeIter ((Iterator.next (⟨0, 3⟩ : RangeIter)).2)) :=
  next_wrap_step.1 Int RangeIter RangeFilter ⟨0, 3⟩

/-- `slot_identity_invariant` after 7 advances (past exhaustion of `0..3`). -/
theorem slot_identity_invariant_witness :
    IterEnum2.tag (advance 7 (@iter_enum_2a RangeFilter RangeIter ⟨0, 3⟩)) = 0 ∧
    advance 7 (@iter_enum_2a RangeFilter RangeIter ⟨0, 3⟩) =
      @iter_enum_2a RangeFilter RangeIter (advance 7 (⟨0, 3⟩ : RangeIter)) :=
  slot_identity_invariant.1 Int RangeIter RangeFilter 7 ⟨0, 3⟩

/-- `wrap_installs_receiver` with the phantom slot type instantiated at the
uninhabited `Empty`: no value of the other slot's type is ever needed. -/
theorem wrap_installs_receiver_witness :
    @iter_enum_2a Empty RangeIter ⟨0, 3⟩ = IterEnum2.A ⟨0, 3⟩ :=
  wrap_installs_receiver.1 RangeIter Empty ⟨0, 3⟩

/-- `none_propagation` after 5 advances, past exhaustion of `0..3`. -/
theorem none_propagation_witness :
    (Iterator.next (advance 5 (@iter_enum_2a RangeFilter RangeIter ⟨0, 3⟩))).1 =
      (Iterator.next (advance 5 (⟨0, 3⟩ : RangeIter))).1 ∧
    ((Iterator.next (advance 5 (@iter_enum_2a RangeFilter RangeIter ⟨0, 3⟩))).1 = none ↔
      (Iterator.next (advance 5 (⟨0, 3⟩ : RangeIter))).1 = none) :=
  none_propagation.1 Int RangeIter RangeFilter 5 ⟨0, 3⟩

/-- `iter_enum_6f_external_behavior` instantiated at a concrete filter
iterator: the anomalously-declared wrap still forwards faithfully. -/
theorem iter_enum_6f_behavior_witness :
    collect 6 (@iter_enum_6f RangeIter RangeIter RangeIter RangeIter RangeIter RangeFilter
        ⟨⟨0, 4⟩, evenPred⟩) = collect 6 (⟨⟨0, 4⟩, evenPred⟩ : RangeFilter) :=
  (iter_enum_6f_external_behavior Int RangeIter RangeIter RangeIter RangeIter RangeIter
    RangeFilter ⟨⟨0, 4⟩, evenPred⟩).2.2.2 6

/-- `if_branch_counts` at fuel 20, ample for both branches. -/
theorem if_branch_counts_witness :
    count 20 (evalIf true) = 10 ∧ count 20 (evalIf false) = 5 :=
  ⟨if_branch_counts.1 9, if_branch_counts.2 14⟩

/-- `iterator_of_iterators_sum` at the base fuels. -/
theorem iterator_of_iterators_witness :
    (collect 4 nestedSeq).foldl (fun sum it => sum + sumIter 10 it) 0 = 1 :=
  iterator_of_iterators_sum 0

/-- `unwrap_wrap_id` at slot A, phantom slot type `Empty`. -/
theorem unwrap_wrap_id_witness :
    IterEnum2.unwrapA (@iter_enum_2a Empty RangeIter ⟨0, 3⟩) = some ⟨0, 3⟩ :=
  unwrap_wrap_id.1 RangeIter Empty ⟨0, 3⟩

/-- `clone_union_behavior` with both slots at `RangeIter`, whose `Clone`
rebuilds the structure (preserving the sequence, as required). -/
theorem clone_union_behavior_witness :
    collect 5 (Clone.clone (IterEnum2.A ⟨0, 3⟩ : IterEnum2 RangeIter RangeIter)) =
      collect 5 (IterEnum2.A ⟨0, 3⟩ : IterEnum2 RangeIter RangeIter) :=
  (clone_union_behavior.1 Int RangeIter RangeIter).2.2.2
    (fun x n => rfl) (fun x n => rfl) (IterEnum2.A ⟨0, 3⟩) 5

end IterEnumeration


